import Mathlib

/-!
Verification development for the `jpeg2000` Rust workspace (crates `jp2` and
`jpc`).  The definitions below are shallow embeddings, translated directly from
the source files:

  * `src/jpc/src/coder.rs`    — MQ arithmetic coder (encoder and decoder),
  * `src/jpc/src/tag_tree.rs` — tag-tree decoder,
  * `src/jpc/src/lib.rs`      — codestream (JPC) marker-segment parser,
  * `src/jp2/src/lib.rs`      — JP2 box parser.

Machine integers are modelled as `Nat` with explicit reductions modulo `2^32`
(resp. `2^16`, `2^8`) exactly where the Rust types wrap; fallible Rust code
(`Result`, `io::Error`) is modelled with `Except`; a Rust `panic!` /
`assert!` failure / arithmetic-underflow abort is modelled by a dedicated
error constructor `panicked`.
-/

namespace Jpeg2000

/-- Two to the 32, the modulus of Rust `u32` arithmetic. -/
def M32 : Nat := 4294967296

/-- A seekable byte reader: the whole input plus a cursor, mirroring the
`io::Read + io::Seek` readers the Rust decoders run on.  Bytes are `Nat`
values `< 256`. -/
structure ByteReader where
  data : List Nat
  pos : Nat
  deriving Repr, DecidableEq

/-- `read_exact` into an `n`-byte buffer: succeeds iff `n` bytes remain. -/
def ByteReader.readExact (r : ByteReader) (n : Nat) :
    Option (List Nat × ByteReader) :=
  if r.pos + n ≤ r.data.length then
    some ((r.data.drop r.pos).take n, { r with pos := r.pos + n })
  else
    none

/-- `u16::from_be_bytes` on a 2-byte buffer. -/
def beU16 (l : List Nat) : Nat := l.getD 0 0 * 256 + l.getD 1 0

/-- `u32::from_be_bytes` on a 4-byte buffer. -/
def beU32 (l : List Nat) : Nat :=
  ((l.getD 0 0 * 256 + l.getD 1 0) * 256 + l.getD 2 0) * 256 + l.getD 3 0

/-- `u64::from_be_bytes` on an 8-byte buffer. -/
def beU64 (l : List Nat) : Nat := beU32 (l.take 4) * 4294967296 + beU32 (l.drop 4)

/-! ## MQ coder (`src/jpc/src/coder.rs`)

Everything in this section is a line-by-line translation of `coder.rs`. -/

/-- One row of Table C.2 (`struct QeEntry`). -/
structure QeEntry where
  qe : Nat
  nmps : Nat
  nlps : Nat
  switch : Bool
  deriving Repr, DecidableEq

instance : Inhabited QeEntry := ⟨⟨0, 0, 0, false⟩⟩

/-- `QE_TABLE`: the 47-row probability estimation table from `coder.rs`. -/
def QE_TABLE : List QeEntry := [
  ⟨0x5601, 1, 1, true⟩, ⟨0x3401, 2, 6, false⟩, ⟨0x1801, 3, 9, false⟩,
  ⟨0x0AC1, 4, 12, false⟩, ⟨0x0521, 5, 29, false⟩, ⟨0x0221, 38, 33, false⟩,
  ⟨0x5601, 7, 6, true⟩, ⟨0x5401, 8, 14, false⟩, ⟨0x4801, 9, 14, false⟩,
  ⟨0x3801, 10, 14, false⟩, ⟨0x3001, 11, 17, false⟩, ⟨0x2401, 12, 18, false⟩,
  ⟨0x1C01, 13, 20, false⟩, ⟨0x1601, 29, 21, false⟩, ⟨0x5601, 15, 14, true⟩,
  ⟨0x5401, 16, 14, false⟩, ⟨0x5101, 17, 15, false⟩, ⟨0x4801, 18, 16, false⟩,
  ⟨0x3801, 19, 17, false⟩, ⟨0x3401, 20, 18, false⟩, ⟨0x3001, 21, 19, false⟩,
  ⟨0x2801, 22, 19, false⟩, ⟨0x2401, 23, 20, false⟩, ⟨0x2201, 24, 21, false⟩,
  ⟨0x1C01, 25, 22, false⟩, ⟨0x1801, 26, 23, false⟩, ⟨0x1601, 27, 24, false⟩,
  ⟨0x1401, 28, 25, false⟩, ⟨0x1201, 29, 26, false⟩, ⟨0x1101, 30, 27, false⟩,
  ⟨0x0AC1, 31, 28, false⟩, ⟨0x09C1, 32, 29, false⟩, ⟨0x08A1, 33, 30, false⟩,
  ⟨0x0521, 34, 31, false⟩, ⟨0x0441, 35, 32, false⟩, ⟨0x02A1, 36, 33, false⟩,
  ⟨0x0221, 37, 34, false⟩, ⟨0x0141, 38, 35, false⟩, ⟨0x0111, 39, 36, false⟩,
  ⟨0x0085, 40, 37, false⟩, ⟨0x0049, 41, 38, false⟩, ⟨0x0025, 42, 39, false⟩,
  ⟨0x0015, 43, 40, false⟩, ⟨0x0009, 44, 41, false⟩, ⟨0x0005, 45, 42, false⟩,
  ⟨0x0001, 45, 43, false⟩, ⟨0x5601, 46, 46, false⟩]

/-- `struct ContextState { index: u8, mps: u8 }`. -/
structure ContextState where
  index : Nat
  mps : Nat
  deriving Repr, DecidableEq

instance : Inhabited ContextState := ⟨⟨0, 0⟩⟩

/-- `struct MqEncoder` — interval register `a`, code register `c`, bit counter
`ct`, output buffer with write pointer `bp`, and the context states. -/
structure MqEncoder where
  a : Nat
  c : Nat
  ct : Nat
  buffer : List Nat
  bp : Nat
  contexts : List ContextState
  deriving Repr, DecidableEq

namespace MqEncoder

/-- `MqEncoder::new(num_contexts)`. -/
def new (numContexts : Nat) : MqEncoder :=
  ⟨0, 0, 0, [], 0, List.replicate numContexts default⟩

/-- `MqEncoder::init` (INITENC). -/
def init (e : MqEncoder) : MqEncoder :=
  let e := { e with a := 0x8000, c := 0, buffer := [0], bp := 0, ct := 12 }
  -- `if self.bp > 0 && self.buffer[self.bp] == 0xFF { self.ct = 13 }`
  if e.bp > 0 ∧ e.buffer.getD e.bp 0 == 0xFF then { e with ct := 13 } else e

/-- Tail of `MqEncoder::byte_out` shared by the carry and no-carry paths:
advance `bp`, emit `(c >> 19) & 0xFF`, keep the low 19 bits and clear the
carry bit, set `ct = 8`. -/
def byteOutEmit (e : MqEncoder) : MqEncoder :=
  let bp := e.bp + 1
  let buffer := if bp ≥ e.buffer.length then e.buffer ++ [0] else e.buffer
  let cHigh := (e.c >>> 19) &&& 0xFF
  let buffer := buffer.set bp cHigh
  { e with bp, buffer, c := (e.c &&& 0x7FFFF) &&& 0x7FFFFFFF, ct := 8 }

/-- `MqEncoder::byte_out` (BYTEOUT). -/
def byteOut (e : MqEncoder) : MqEncoder :=
  let buffer := if e.bp ≥ e.buffer.length then e.buffer ++ [0] else e.buffer
  let e := { e with buffer }
  let b := e.buffer.getD e.bp 0
  if b == 0xFF then
    -- bit stuffing after 0xFF
    let cHigh := (e.c >>> 20) &&& 0xFF
    let bp := e.bp + 1
    let buffer := if bp ≥ e.buffer.length then e.buffer ++ [0] else e.buffer
    let buffer := buffer.set bp cHigh
    { e with bp, buffer, c := e.c &&& 0xFFFFF, ct := 7 }
  else
    if e.c &&& 0x8000000 ≠ 0 then
      -- carry propagation into the previously written byte
      let b := b + 1
      let e := { e with buffer := e.buffer.set e.bp b }
      if b == 0xFF then
        let c := e.c &&& 0x7FFFFFF
        let bp := e.bp + 1
        let buffer := if bp ≥ e.buffer.length then e.buffer ++ [0] else e.buffer
        let cHigh := (c >>> 20) &&& 0xFF
        let buffer := buffer.set bp cHigh
        { e with bp, buffer, c := c &&& 0xFFFFF, ct := 7 }
      else
        byteOutEmit e
    else
      byteOutEmit e

/-- `MqEncoder::renorm_e` (RENORME), with fuel for the `loop`; each reachable
call renormalises in at most 16 iterations, so fuel 32 is ample. -/
def renormE : Nat → MqEncoder → MqEncoder
  | 0, e => e
  | fuel + 1, e =>
    let e := { e with a := (e.a <<< 1) % M32, c := (e.c <<< 1) % M32,
                      ct := e.ct - 1 }
    let e := if e.ct == 0 then e.byteOut else e
    if e.a &&& 0x8000 ≠ 0 then e else renormE fuel e

/-- `MqEncoder::code_mps` (CODEMPS). -/
def code_mps (e : MqEncoder) (cx : Nat) : MqEncoder :=
  let index := (e.contexts.getD cx default).index
  let qe := (QE_TABLE.getD index default).qe
  let e := { e with a := e.a - qe }
  if e.a &&& 0x8000 == 0 then
    let e :=
      if e.a < qe then { e with a := qe } else { e with c := (e.c + qe) % M32 }
    let ctx := e.contexts.getD cx default
    let e := { e with contexts :=
                e.contexts.set cx { ctx with index := (QE_TABLE.getD index default).nmps } }
    renormE 32 e
  else
    { e with c := (e.c + qe) % M32 }

/-- `MqEncoder::code_lps` (CODELPS). -/
def code_lps (e : MqEncoder) (cx : Nat) : MqEncoder :=
  let index := (e.contexts.getD cx default).index
  let qe := (QE_TABLE.getD index default).qe
  let e := { e with a := e.a - qe }
  let e :=
    if e.a < qe then { e with c := (e.c + qe) % M32 } else { e with a := qe }
  let e :=
    if (QE_TABLE.getD index default).switch then
      let ctx := e.contexts.getD cx default
      { e with contexts := e.contexts.set cx { ctx with mps := 1 - ctx.mps } }
    else e
  let ctx := e.contexts.getD cx default
  let e := { e with contexts :=
              e.contexts.set cx { ctx with index := (QE_TABLE.getD index default).nlps } }
  renormE 32 e

/-- `MqEncoder::code0`. -/
def code0 (e : MqEncoder) (cx : Nat) : MqEncoder :=
  if (e.contexts.getD cx default).mps == 0 then e.code_mps cx else e.code_lps cx

/-- `MqEncoder::code1`. -/
def code1 (e : MqEncoder) (cx : Nat) : MqEncoder :=
  if (e.contexts.getD cx default).mps == 1 then e.code_mps cx else e.code_lps cx

/-- `MqEncoder::encode(cx, d)` (ENCODE). -/
def encode (e : MqEncoder) (cx d : Nat) : MqEncoder :=
  if d == 0 then e.code0 cx else e.code1 cx

/-- `MqEncoder::set_bits` (SETBITS). -/
def set_bits (e : MqEncoder) : MqEncoder :=
  let temp := (e.c + e.a) % M32
  let c := e.c ||| 0xFFFF
  if c ≥ temp then { e with c := c - 0x8000 } else { e with c := c }

/-- `MqEncoder::flush` (FLUSH); returns the compressed bytes (the buffer with
its leading sentinel byte dropped). -/
def flush (e : MqEncoder) : List Nat :=
  let e := e.set_bits
  let e := { e with c := (e.c <<< e.ct) % M32 }
  let e := e.byteOut
  let e := { e with c := (e.c <<< e.ct) % M32 }
  let e := e.byteOut
  let buffer :=
    if e.bp < e.buffer.length ∧ e.buffer.getD e.bp 0 == 0xFF then
      e.buffer.take e.bp
    else
      e.buffer.take (e.bp + 1)
  buffer.drop 1

end MqEncoder

/-- `struct MqDecoder`. -/
structure MqDecoder where
  a : Nat
  c : Nat
  ct : Nat
  buffer : List Nat
  bp : Nat
  contexts : List ContextState
  deriving Repr, DecidableEq

namespace MqDecoder

/-- `MqDecoder::new(num_contexts)`. -/
def new (numContexts : Nat) : MqDecoder :=
  ⟨0, 0, 0, [], 0, List.replicate numContexts default⟩

/-- `MqDecoder::byte_in` (BYTEIN). -/
def byteIn (d : MqDecoder) : MqDecoder :=
  if d.bp ≥ d.buffer.length then
    -- end of data: feed 1s
    { d with c := (d.c + 0xFF00) % M32, ct := 8 }
  else
    let b := d.buffer.getD d.bp 0
    if b == 0xFF then
      if d.bp + 1 < d.buffer.length then
        let b1 := d.buffer.getD (d.bp + 1) 0
        if b1 > 0x8F then
          { d with c := (d.c + 0xFF00) % M32, ct := 8 }
        else
          { d with bp := d.bp + 1, c := (d.c + (b <<< 9)) % M32, ct := 7 }
      else
        { d with c := (d.c + 0xFF00) % M32, ct := 8 }
    else
      { d with bp := d.bp + 1, c := (d.c + (b <<< 8)) % M32, ct := 8 }

/-- `MqDecoder::init(data)` (INITDEC). -/
def init (d : MqDecoder) (data : List Nat) : MqDecoder :=
  let d := { d with buffer := data, bp := 0, a := 0x8000, ct := 0, c := 0 }
  let d :=
    if d.bp < d.buffer.length then
      { d with c := ((d.buffer.getD d.bp 0) <<< 16) % M32, bp := d.bp + 1 }
    else d
  let d := d.byteIn
  { d with c := (d.c <<< 7) % M32, ct := d.ct - 7, a := 0x8000 }

/-- `MqDecoder::mps_exchange` (MPS_EXCHANGE). -/
def mps_exchange (d : MqDecoder) (cx : Nat) : Nat × MqDecoder :=
  let index := (d.contexts.getD cx default).index
  let qe := (QE_TABLE.getD index default).qe
  if d.a < qe then
    let out := 1 - (d.contexts.getD cx default).mps
    let d :=
      if (QE_TABLE.getD index default).switch then
        let ctx := d.contexts.getD cx default
        { d with contexts := d.contexts.set cx { ctx with mps := 1 - ctx.mps } }
      else d
    let ctx := d.contexts.getD cx default
    let d := { d with contexts :=
                d.contexts.set cx { ctx with index := (QE_TABLE.getD index default).nlps } }
    (out, d)
  else
    let out := (d.contexts.getD cx default).mps
    let ctx := d.contexts.getD cx default
    let d := { d with contexts :=
                d.contexts.set cx { ctx with index := (QE_TABLE.getD index default).nmps } }
    (out, d)

/-- `MqDecoder::lps_exchange` (LPS_EXCHANGE). -/
def lps_exchange (d : MqDecoder) (cx : Nat) : Nat × MqDecoder :=
  let index := (d.contexts.getD cx default).index
  let qe := (QE_TABLE.getD index default).qe
  if d.a < qe then
    let d := { d with a := qe }
    let out := (d.contexts.getD cx default).mps
    let ctx := d.contexts.getD cx default
    let d := { d with contexts :=
                d.contexts.set cx { ctx with index := (QE_TABLE.getD index default).nmps } }
    (out, d)
  else
    let d := { d with a := qe }
    let out := 1 - (d.contexts.getD cx default).mps
    let d :=
      if (QE_TABLE.getD index default).switch then
        let ctx := d.contexts.getD cx default
        { d with contexts := d.contexts.set cx { ctx with mps := 1 - ctx.mps } }
      else d
    let ctx := d.contexts.getD cx default
    let d := { d with contexts :=
                d.contexts.set cx { ctx with index := (QE_TABLE.getD index default).nlps } }
    (out, d)

/-- `MqDecoder::renorm_d` (RENORMD), with fuel for the `loop`. -/
def renormD : Nat → MqDecoder → MqDecoder
  | 0, d => d
  | fuel + 1, d =>
    let d := if d.ct == 0 then d.byteIn else d
    let d := { d with a := (d.a <<< 1) % M32, c := (d.c <<< 1) % M32,
                      ct := d.ct - 1 }
    if d.a &&& 0x8000 ≠ 0 then d else renormD fuel d

/-- `MqDecoder::decode(cx)` (DECODE). -/
def decode (d : MqDecoder) (cx : Nat) : Nat × MqDecoder :=
  let index := (d.contexts.getD cx default).index
  let qe := (QE_TABLE.getD index default).qe
  let d := { d with a := d.a - qe }
  let cHigh := d.c >>> 16
  if cHigh < qe then
    let (out, d) := d.lps_exchange cx
    (out, renormD 32 d)
  else
    let d := { d with c := d.c - (qe <<< 16) }
    if d.a &&& 0x8000 == 0 then
      let (out, d) := d.mps_exchange cx
      (out, renormD 32 d)
    else
      ((d.contexts.getD cx default).mps, d)

end MqDecoder

/-- Run the encoder over a plan of `(context, bit)` pairs. -/
def mqEncodeSeq (ops : List (Nat × Nat)) (e : MqEncoder) : MqEncoder :=
  ops.foldl (fun e p => e.encode p.1 p.2) e

/-- Run the decoder over a context plan, collecting the decoded bits. -/
def mqDecodeSeq : List Nat → MqDecoder → List Nat × MqDecoder
  | [], d => ([], d)
  | cx :: plan, d =>
    let (bit, d) := d.decode cx
    let (bits, d) := mqDecodeSeq plan d
    (bit :: bits, d)

/-- Full pipeline of the spec's round-trip contract: initialise an encoder
with `n` contexts, encode the bits of `ops` under their contexts, flush,
initialise a decoder with `n` contexts on the output, decode under the same
context plan. -/
def mqRoundTrip (n : Nat) (ops : List (Nat × Nat)) : List Nat :=
  let compressed := (mqEncodeSeq ops (MqEncoder.new n).init).flush
  (mqDecodeSeq (ops.map Prod.fst) ((MqDecoder.new n).init compressed)).1

/-! ## Tag-tree decoder (`src/jpc/src/tag_tree.rs`) -/

/-- `struct TagTreeDecoder`. -/
structure TagTreeDecoder where
  max_depth : Nat
  cur_depth : Nat
  cur_value : Nat
  levels : List (Nat × List Nat)
  deriving Repr, DecidableEq

namespace TagTreeDecoder

/-- The `while mw > 1 || mh > 1` loop of `TagTreeDecoder::new`; the fuel is
an upper bound on the iteration count (`mw + mh` strictly decreases). -/
def newLoop : Nat → Nat → Nat → Nat → List (Nat × List Nat) →
    Nat × List (Nat × List Nat)
  | 0, _, _, maxDepth, levels => (maxDepth, levels)
  | fuel + 1, mw, mh, maxDepth, levels =>
    if mw > 1 ∨ mh > 1 then
      let w := max mw 1
      newLoop fuel ((mw + 1) / 2) ((mh + 1) / 2) (maxDepth + 1)
        (levels ++ [(w, [])])
    else
      (maxDepth, levels)

/-- `TagTreeDecoder::new(width, height)`. -/
def new (width height : Nat) : TagTreeDecoder :=
  let (maxDepth, levels) := newLoop (width + height + 1) width height 0 []
  ⟨maxDepth, 0, 0, (levels ++ [(1, [])]).reverse⟩

/-- Result of a `push_bit` call: a normal return, a failure of the
`assert_eq!(1, b)` assertion, or any other panic (out-of-bounds indexing or
`usize` underflow). -/
inductive TtResult where
  | ok (out : Option Nat) (st : TagTreeDecoder)
  | assertFail
  | panicked
  deriving Repr, DecidableEq

/-- The back-tracking `loop` at the end of `push_bit`: walks up the tree to
the next position whose parent is already filled, returning the new
`cur_value` and `cur_depth` (`none` models a panic: `cur_depth - 1` underflow
at depth 0, an out-of-bounds `levels` index, or `offset % 0`). -/
def backtrackLoop (levels : List (Nat × List Nat)) : Nat → Option (Nat × Nat)
  | 0 => none
  | d + 1 =>
    match levels.get? (d + 1) with
    | none => none
    | some (cWidth, curLvl) =>
      if cWidth == 0 then none
      else
        let offset := curLvl.length
        let parentColumn := offset % cWidth / 2
        let parentRow := offset / cWidth / 2
        match levels.get? d with
        | none => none
        | some (pw, plvl) =>
          let parentOffset := parentRow * pw + parentColumn
          if parentOffset < plvl.length then
            some (plvl.getD parentOffset 0, d + 1)
          else
            backtrackLoop levels d

/-- `TagTreeDecoder::push_bit(b)`.  The `cur_value` increment is `u8`
arithmetic, hence the reduction modulo 256. -/
def pushBit (t : TagTreeDecoder) (b : Nat) : TtResult :=
  if b == 0 then
    .ok none { t with cur_value := (t.cur_value + 1) % 256 }
  else if b != 1 then
    .assertFail
  else
    match t.levels.get? t.cur_depth with
    | none => .panicked
    | some (w, lvl) =>
      let t := { t with levels := t.levels.set t.cur_depth (w, lvl ++ [t.cur_value]) }
      if t.cur_depth < t.max_depth then
        .ok none { t with cur_depth := t.cur_depth + 1 }
      else if t.cur_depth == 0 ∧ t.max_depth == 0 then
        .ok (some t.cur_value) t
      else
        let out := t.cur_value
        match backtrackLoop t.levels t.cur_depth with
        | none => .panicked
        | some (v, depth) =>
          .ok (some out) { t with cur_value := v, cur_depth := depth }

end TagTreeDecoder

/-! ## JPC codestream parser (`src/jpc/src/lib.rs`)

Marker-segment decoders, translated function by function.  Rust `u16`/`u8`
arithmetic that can wrap is modelled with explicit `% 65536` / `% 256`
(release-mode wrapping semantics); a `usize` subtraction that would underflow
in a `vec![0; n]` length is modelled by the `panicked` error, since the Rust
program aborts there either way (overflow panic in debug, allocation failure
of the wrapped size in release). -/

/-- Error outcome of the JPC decoders: a `CodestreamError` variant, a
propagated `io` end-of-file error from `read_exact`, or a panic. -/
inductive JpcErr where
  | markerError (marker : Nat × Nat) (error : String)
  | markerMissing (marker : Nat × Nat)
  | markerUnexpected (marker : Nat × Nat) (offset : Nat)
  | tileSizeOverflow (imageHorizontalOffset imageVerticalOffset
      tileHorizontalOffset tileVerticalOffset
      referenceTileWidth referenceTileHeight : Nat)
  | tileGridOffsetOverflow (tileHorizontalOffset tileVerticalOffset
      imageHorizontalOffset imageVerticalOffset : Nat)
  | eof
  | panicked
  deriving Repr, DecidableEq

/-- `read_exact` lifted into the `Except` monad of the JPC parser. -/
def ByteReader.readJ (r : ByteReader) (n : Nat) :
    Except JpcErr (List Nat × ByteReader) :=
  match r.readExact n with
  | some x => .ok x
  | none => .error .eof

def MARKER_SYMBOL_SOC : Nat × Nat := (255, 79)
def MARKER_SYMBOL_SOT : Nat × Nat := (255, 144)
def MARKER_SYMBOL_SOD : Nat × Nat := (255, 147)
def MARKER_SYMBOL_EOC : Nat × Nat := (255, 217)
def MARKER_SYMBOL_SIZ : Nat × Nat := (255, 81)
def MARKER_SYMBOL_COD : Nat × Nat := (255, 82)
def MARKER_SYMBOL_COC : Nat × Nat := (255, 83)
def MARKER_SYMBOL_RGN : Nat × Nat := (255, 94)
def MARKER_SYMBOL_QCD : Nat × Nat := (255, 92)
def MARKER_SYMBOL_QCC : Nat × Nat := (255, 93)
def MARKER_SYMBOL_POC : Nat × Nat := (255, 95)
def MARKER_SYMBOL_TLM : Nat × Nat := (255, 85)
def MARKER_SYMBOL_PLM : Nat × Nat := (255, 87)
def MARKER_SYMBOL_PLT : Nat × Nat := (255, 88)
def MARKER_SYMBOL_PPM : Nat × Nat := (255, 96)
def MARKER_SYMBOL_PPT : Nat × Nat := (255, 97)
def MARKER_SYMBOL_SOP : Nat × Nat := (255, 145)
def MARKER_SYMBOL_EPH : Nat × Nat := (255, 146)
def MARKER_SYMBOL_CRG : Nat × Nat := (255, 99)
def MARKER_SYMBOL_COM : Nat × Nat := (255, 100)

/-- Wrapping `u16` subtraction (`a - b` in release-mode Rust), for
`a < 65536` and `b ≤ 65536`. -/
def u16sub (a b : Nat) : Nat := (a + 65536 - b) % 65536

/-- `enum CodingStyleDefault` (Table A.13 flags of the Scod byte). -/
inductive CodingStyleDefault where
  | entropyCoderWithPrecincts
  | entropyCoderWithPrecinctsDefined
  | noSOP
  | sop
  | noEPH
  | eph
  | reserved (value : Nat)
  deriving Repr, DecidableEq

/-- `CodingStyleDefault::new(value)` — translated literally, including the
exact-match masks of the source. -/
def CodingStyleDefault.new (value : Nat) : List CodingStyleDefault :=
  let styles : List CodingStyleDefault := []
  let styles :=
    if value &&& 0b11111001 == 0 then
      styles ++ [.entropyCoderWithPrecinctsDefined]
    else if value &&& 0b11111001 == 0b0001 then
      styles ++ [.entropyCoderWithPrecincts]
    else styles
  let styles :=
    if value &&& 0b11111010 == 0 then styles ++ [.noSOP]
    else if value &&& 0b11111010 == 0b10 then styles ++ [.sop]
    else styles
  let styles :=
    if value &&& 0b11111100 == 0 then styles ++ [.noEPH]
    else if value &&& 0b11111100 == 0b0100 then styles ++ [.eph]
    else styles
  styles

/-- `enum QuantizationStyle` of the `jpc` crate. -/
inductive QuantizationStyle where
  | no (guard : Nat)
  | scalarDerived (guard : Nat)
  | scalarExpounded (guard : Nat)
  | reserved (value : Nat)
  deriving Repr, DecidableEq

/-- `QuantizationStyle::new(byte)`: low 5 bits select the style
(`byte << 3 >> 3` on `u8`), high 3 bits are the guard-bit count. -/
def QuantizationStyle.new (byte : Nat) : QuantizationStyle :=
  let value := ((byte <<< 3) % 256) >>> 3
  let guard := byte >>> 5
  if value == 0 then .no guard
  else if value == 1 then .scalarDerived guard
  else if value == 2 then .scalarExpounded guard
  else .reserved byte

/-- `enum QuantizationValue`. -/
inductive QuantizationValue where
  | reversible (value : List Nat)
  | irreversible (value : List Nat)
  deriving Repr, DecidableEq

/-- `struct ImageAndTileSizeMarkerSegment` (SIZ); multi-byte fields are kept
as the raw big-endian byte arrays, exactly as in the Rust struct. -/
structure ImageAndTileSizeMarkerSegment where
  offset : Nat := 0
  length : Nat := 0
  decoder_capabilities : List Nat := []
  reference_grid_width : List Nat := []
  reference_grid_height : List Nat := []
  image_horizontal_offset : List Nat := []
  image_vertical_offset : List Nat := []
  reference_tile_width : List Nat := []
  reference_tile_height : List Nat := []
  tile_horizontal_offset : List Nat := []
  tile_vertical_offset : List Nat := []
  no_components : List Nat := []
  precision : List (List Nat) := []
  horizontal_separation : List (List Nat) := []
  vertical_separation : List (List Nat) := []
  deriving Repr, DecidableEq, Inhabited

namespace ImageAndTileSizeMarkerSegment

def noComponents (s : ImageAndTileSizeMarkerSegment) : Nat := beU16 s.no_components
def imageHorizontalOffset (s : ImageAndTileSizeMarkerSegment) : Nat :=
  beU32 s.image_horizontal_offset
def imageVerticalOffset (s : ImageAndTileSizeMarkerSegment) : Nat :=
  beU32 s.image_vertical_offset
def referenceTileWidth (s : ImageAndTileSizeMarkerSegment) : Nat :=
  beU32 s.reference_tile_width
def referenceTileHeight (s : ImageAndTileSizeMarkerSegment) : Nat :=
  beU32 s.reference_tile_height
def tileHorizontalOffset (s : ImageAndTileSizeMarkerSegment) : Nat :=
  beU32 s.tile_horizontal_offset
def tileVerticalOffset (s : ImageAndTileSizeMarkerSegment) : Nat :=
  beU32 s.tile_vertical_offset

end ImageAndTileSizeMarkerSegment

/-- `struct CodingStyleParameters` (SPcod / SPcoc). -/
structure CodingStyleParameters where
  coding_style : List Nat := []
  no_decomposition_levels : List Nat := []
  code_block_width : List Nat := []
  code_block_height : List Nat := []
  code_block_style : List Nat := []
  transformation : List Nat := []
  precinct_size : List Nat := []
  deriving Repr, DecidableEq, Inhabited

namespace CodingStyleParameters

def noDecompositionLevels (p : CodingStyleParameters) : Nat :=
  p.no_decomposition_levels.getD 0 0

/-- `coding_style[0] & 0b1001 == 1`. -/
def hasDefinedPrecinctSize (p : CodingStyleParameters) : Bool :=
  p.coding_style.getD 0 0 &&& 0b1001 == 1

end CodingStyleParameters

/-- `struct CodingStyleMarkerSegment` (COD). -/
structure CodingStyleMarkerSegment where
  offset : Nat := 0
  length : Nat := 0
  coding_style : List Nat := []
  progression_order : List Nat := []
  no_layers : List Nat := []
  multiple_component_transformation : List Nat := []
  coding_style_parameters : CodingStyleParameters := {}
  deriving Repr, DecidableEq, Inhabited

/-- `CodingStyleMarkerSegment::coding_styles()`. -/
def CodingStyleMarkerSegment.codingStyles (s : CodingStyleMarkerSegment) :
    List CodingStyleDefault :=
  CodingStyleDefault.new (s.coding_style.getD 0 0)

/-- `struct CodingStyleComponentSegment` (COC). -/
structure CodingStyleComponentSegment where
  offset : Nat := 0
  length : Nat := 0
  index : List Nat := []
  coding_style : List Nat := []
  coding_style_parameters : CodingStyleParameters := {}
  deriving Repr, DecidableEq, Inhabited

/-- `struct RegionOfInterestSegment` (RGN). -/
structure RegionOfInterestSegment where
  offset : Nat := 0
  length : Nat := 0
  component_index : List Nat := []
  region_of_interest_style : List Nat := []
  region_of_interest_style_parameter : List Nat := []
  deriving Repr, DecidableEq, Inhabited

/-- `struct QuantizationDefaultMarkerSegment` (QCD). -/
structure QuantizationDefaultMarkerSegment where
  length : Nat := 0
  quantization_style : List Nat := []
  values : List QuantizationValue := []
  deriving Repr, DecidableEq, Inhabited

def QuantizationDefaultMarkerSegment.quantizationStyle
    (s : QuantizationDefaultMarkerSegment) : QuantizationStyle :=
  QuantizationStyle.new (s.quantization_style.getD 0 0)

/-- `struct QuantizationComponentSegment` (QCC). -/
structure QuantizationComponentSegment where
  offset : Nat := 0
  length : Nat := 0
  component_index : List Nat := []
  quantization_style : List Nat := []
  quantization_values : List QuantizationValue := []
  deriving Repr, DecidableEq, Inhabited

def QuantizationComponentSegment.quantizationStyle
    (s : QuantizationComponentSegment) : QuantizationStyle :=
  QuantizationStyle.new (s.quantization_style.getD 0 0)

/-- `struct CodingStyleComponentSegmentProgression` (one POC progression). -/
structure CodingStyleComponentSegmentProgression where
  resolution_level_index_start : List Nat := []
  component_index_start : List Nat := []
  layer_index_end : List Nat := []
  resolution_level_index_end : List Nat := []
  component_index_end : List Nat := []
  progression_order : List Nat := []
  deriving Repr, DecidableEq, Inhabited

/-- `struct ProgressionOrderChangeSegment` (POC). -/
structure ProgressionOrderChangeSegment where
  offset : Nat := 0
  length : Nat := 0
  progressions : List CodingStyleComponentSegmentProgression := []
  deriving Repr, DecidableEq, Inhabited

/-- `struct PackedPacketHeaderSegment` (PPM). -/
structure PackedPacketHeaderSegment where
  offset : Nat := 0
  length : Nat := 0
  index : List Nat := []
  number_of_bytes : List Nat := []
  data : List Nat := []
  deriving Repr, DecidableEq, Inhabited

/-- `enum TilePartParameterSize` (Stlm decomposition). -/
inductive TilePartParameterSize where
  | ttlmNone
  | ttlm8Bit
  | ttlm16Bit
  | ptlm16Bit
  | ptlm32Bit
  | reserved (value : Nat)
  deriving Repr, DecidableEq

/-- `TilePartParameterSize::new(value)`: `value << 2 >> 6` (bits 5–4) selects
the Ttlm size, `value << 1 >> 7` (bit 6) the Ptlm size. -/
def TilePartParameterSize.new (value : Nat) : List TilePartParameterSize :=
  let sizes : List TilePartParameterSize := []
  let t := ((value <<< 2) % 256) >>> 6
  let sizes :=
    if t == 0 then sizes ++ [.ttlmNone]
    else if t == 1 then sizes ++ [.ttlm8Bit]
    else if t == 2 then sizes ++ [.ttlm16Bit]
    else sizes
  let p := ((value <<< 1) % 256) >>> 7
  let sizes :=
    if p == 0 then sizes ++ [.ptlm16Bit]
    else if p == 1 then sizes ++ [.ptlm32Bit]
    else sizes
  sizes

/-- `struct TilePartLength`. -/
structure TilePartLength where
  tile_index : List Nat := []
  tile_length : List Nat := []
  deriving Repr, DecidableEq, Inhabited

/-- `struct TilePartLengthsSegment` (TLM). -/
structure TilePartLengthsSegment where
  offset : Nat := 0
  length : Nat := 0
  index : List Nat := []
  parameter_sizes : List Nat := []
  tile_part_lengths : List TilePartLength := []
  deriving Repr, DecidableEq, Inhabited

def TilePartLengthsSegment.parameterSizes (s : TilePartLengthsSegment) :
    List TilePartParameterSize :=
  TilePartParameterSize.new (s.parameter_sizes.getD 0 0)

/-- `struct PacketLengthSegment` (PLM). -/
structure PacketLengthSegment where
  offset : Nat := 0
  length : Nat := 0
  index : List Nat := []
  no_bytes : List Nat := []
  packet_length : List Nat := []
  deriving Repr, DecidableEq, Inhabited

/-- `struct ComponentRegistrationSegment` (CRG). -/
structure ComponentRegistrationSegment where
  offset : Nat := 0
  length : Nat := 0
  horizontal_offset : List (List Nat) := []
  vertical_offset : List (List Nat) := []
  deriving Repr, DecidableEq, Inhabited

/-- `struct CommentMarkerSegment` (COM). -/
structure CommentMarkerSegment where
  registration_value : List Nat := []
  comment : List Nat := []
  deriving Repr, DecidableEq, Inhabited

/-- `ContiguousCodestream::decode_length`: 2-byte big-endian segment length. -/
def decode_length (r : ByteReader) : Except JpcErr (Nat × ByteReader) := do
  let (l, r) ← r.readJ 2
  return (beU16 l, r)

/-- `ContiguousCodestream::decode_siz`, including both SIZ invariant checks.
The `u32` additions of the tile-size check wrap modulo `2^32` as in
release-mode Rust. -/
def decode_siz (r : ByteReader) :
    Except JpcErr (ImageAndTileSizeMarkerSegment × ByteReader) := do
  let offset := r.pos
  let (length, r) ← decode_length r
  let (decoder_capabilities, r) ← r.readJ 2
  let (reference_grid_width, r) ← r.readJ 4
  let (reference_grid_height, r) ← r.readJ 4
  let (image_horizontal_offset, r) ← r.readJ 4
  let (image_vertical_offset, r) ← r.readJ 4
  let (reference_tile_width, r) ← r.readJ 4
  let (reference_tile_height, r) ← r.readJ 4
  let (tile_horizontal_offset, r) ← r.readJ 4
  let (tile_vertical_offset, r) ← r.readJ 4
  let (no_components, r) ← r.readJ 2
  let seg : ImageAndTileSizeMarkerSegment :=
    { offset, length, decoder_capabilities, reference_grid_width,
      reference_grid_height, image_horizontal_offset, image_vertical_offset,
      reference_tile_width, reference_tile_height, tile_horizontal_offset,
      tile_vertical_offset, no_components }
  let rec comps : Nat → ImageAndTileSizeMarkerSegment → ByteReader →
      Except JpcErr (ImageAndTileSizeMarkerSegment × ByteReader)
    | 0, seg, r => .ok (seg, r)
    | k + 1, seg, r => do
      let (precision, r) ← r.readJ 1
      let (horizontal_separation, r) ← r.readJ 1
      let (vertical_separation, r) ← r.readJ 1
      comps k
        { seg with precision := seg.precision ++ [precision],
                   horizontal_separation :=
                     seg.horizontal_separation ++ [horizontal_separation],
                   vertical_separation :=
                     seg.vertical_separation ++ [vertical_separation] } r
  let (seg, r) ← comps seg.noComponents seg r
  if seg.tileHorizontalOffset > seg.imageHorizontalOffset
      ∨ seg.tileVerticalOffset > seg.imageVerticalOffset then
    throw (.tileGridOffsetOverflow seg.tileHorizontalOffset
      seg.tileVerticalOffset seg.imageHorizontalOffset seg.imageVerticalOffset)
  else if (seg.referenceTileWidth + seg.tileHorizontalOffset) % M32
        < seg.imageHorizontalOffset
      ∨ (seg.referenceTileHeight + seg.tileVerticalOffset) % M32
        < seg.imageVerticalOffset then
    throw (.tileSizeOverflow seg.imageHorizontalOffset seg.imageVerticalOffset
      seg.tileHorizontalOffset seg.tileVerticalOffset
      seg.referenceTileWidth seg.referenceTileHeight)
  else
    return (seg, r)

/-- `ContiguousCodestream::decode_coding_style_parameters`. -/
def decode_coding_style_parameters (r : ByteReader) (codingStyle : Nat) :
    Except JpcErr (CodingStyleParameters × ByteReader) := do
  let (no_decomposition_levels, r) ← r.readJ 1
  let (code_block_width, r) ← r.readJ 1
  let (code_block_height, r) ← r.readJ 1
  let (code_block_style, r) ← r.readJ 1
  let (transformation, r) ← r.readJ 1
  let p : CodingStyleParameters :=
    { coding_style := [codingStyle], no_decomposition_levels,
      code_block_width, code_block_height, code_block_style, transformation }
  if p.hasDefinedPrecinctSize then
    let (precinct_size, r) ← r.readJ (p.noDecompositionLevels + 1)
    return ({ p with precinct_size }, r)
  else
    return (p, r)

/-- `ContiguousCodestream::decode_cod`. -/
def decode_cod (r : ByteReader) :
    Except JpcErr (CodingStyleMarkerSegment × ByteReader) := do
  let offset := r.pos
  let (length, r) ← decode_length r
  let (coding_style, r) ← r.readJ 1
  let (progression_order, r) ← r.readJ 1
  let (no_layers, r) ← r.readJ 2
  let (multiple_component_transformation, r) ← r.readJ 1
  let (csp, r) ← decode_coding_style_parameters r (coding_style.getD 0 0)
  return ({ offset, length, coding_style, progression_order, no_layers,
            multiple_component_transformation,
            coding_style_parameters := csp }, r)

/-- `ContiguousCodestream::decode_component_index`: one byte when
`Csiz < 257`, two bytes otherwise. -/
def decode_component_index (r : ByteReader) (noComponents : Nat) :
    Except JpcErr (List Nat × ByteReader) := do
  if noComponents < 257 then
    let (b, r) ← r.readJ 1
    return ([0, b.getD 0 0], r)
  else
    r.readJ 2

/-- `ContiguousCodestream::decode_coc`. -/
def decode_coc (r : ByteReader) (noComponents : Nat) :
    Except JpcErr (CodingStyleComponentSegment × ByteReader) := do
  let offset := r.pos
  let (length, r) ← decode_length r
  let (index, r) ← decode_component_index r noComponents
  let (coding_style, r) ← r.readJ 1
  let (csp, r) ← decode_coding_style_parameters r (coding_style.getD 0 0)
  return ({ offset, length, index, coding_style,
            coding_style_parameters := csp }, r)

/-- `ContiguousCodestream::decode_rgn`. -/
def decode_rgn (r : ByteReader) (noComponents : Nat) :
    Except JpcErr (RegionOfInterestSegment × ByteReader) := do
  let offset := r.pos
  let (length, r) ← decode_length r
  let (component_index, r) ← decode_component_index r noComponents
  let (region_of_interest_style, r) ← r.readJ 1
  let (region_of_interest_style_parameter, r) ← r.readJ 1
  return ({ offset, length, component_index, region_of_interest_style,
            region_of_interest_style_parameter }, r)

/-- The `while index < no_progression_order_change` loop of `decode_poc`. -/
def decode_poc_loop (noComponents : Nat) :
    Nat → List CodingStyleComponentSegmentProgression → ByteReader →
    Except JpcErr (List CodingStyleComponentSegmentProgression × ByteReader)
  | 0, acc, r => .ok (acc, r)
  | k + 1, acc, r => do
    let (resolution_level_index_start, r) ← r.readJ 1
    let (component_index_start, r) ← decode_component_index r noComponents
    let (layer_index_end, r) ← r.readJ 2
    let (resolution_level_index_end, r) ← r.readJ 1
    let (component_index_end, r) ← decode_component_index r noComponents
    let (progression_order, r) ← r.readJ 1
    decode_poc_loop noComponents k
      (acc ++ [{ resolution_level_index_start, component_index_start,
                 layer_index_end, resolution_level_index_end,
                 component_index_end, progression_order }]) r

/-- `ContiguousCodestream::decode_poc`; the iteration count
`length - 2 - 7` (resp. `- 2 - 9`) is wrapping `u16` arithmetic. -/
def decode_poc (r : ByteReader) (noComponents : Nat) :
    Except JpcErr (ProgressionOrderChangeSegment × ByteReader) := do
  let offset := r.pos
  let (length, r) ← decode_length r
  let noProgressionOrderChange :=
    if noComponents < 256 then u16sub length 9 else u16sub length 11
  let (progressions, r) ← decode_poc_loop noComponents
    noProgressionOrderChange [] r
  return ({ offset, length, progressions }, r)

/-- `ContiguousCodestream::decode_ppm`; `vec![0; length - 7]` aborts when
`length < 7` (usize underflow). -/
def decode_ppm (r : ByteReader) :
    Except JpcErr (PackedPacketHeaderSegment × ByteReader) := do
  let offset := r.pos
  let (length, r) ← decode_length r
  if length < 7 then throw .panicked
  else
    let (index, r) ← r.readJ 1
    let (number_of_bytes, r) ← r.readJ 4
    let (data, r) ← r.readJ (length - 7)
    return ({ offset, length, index, number_of_bytes, data }, r)

/-- The per-tile-part read loop of `decode_tlm`.  A `reader.take(k)` with
`k` smaller than the destination buffer makes `read_exact` fail with an
end-of-file error, which is what the `Ttlm8Bit` and `Ptlm16Bit` arms do
(`take(1)` into a 2-byte buffer, `take(2)` into a 4-byte buffer). -/
def decode_tlm_loop (sizes : List TilePartParameterSize) :
    Nat → List TilePartLength → ByteReader →
    Except JpcErr (List TilePartLength × ByteReader)
  | 0, acc, r => .ok (acc, r)
  | k + 1, acc, r => do
    let (tile_index, r) ←
      if sizes.contains .ttlm8Bit then
        (.error .eof : Except JpcErr (List Nat × ByteReader))
      else if sizes.contains .ttlm16Bit then
        r.readJ 2
      else
        .ok ([], r)
    let (tile_length, r) ←
      if sizes.contains .ptlm16Bit then
        (.error .eof : Except JpcErr (List Nat × ByteReader))
      else if sizes.contains .ptlm32Bit then
        r.readJ 4
      else
        .ok ([], r)
    decode_tlm_loop sizes k (acc ++ [{ tile_index, tile_length }]) r

/-- `ContiguousCodestream::decode_tlm`; `length - 4` is wrapping `u16`
arithmetic, and `tile_part_size` is never zero because the Ptlm match always
contributes 2 or 4. -/
def decode_tlm (r : ByteReader) :
    Except JpcErr (TilePartLengthsSegment × ByteReader) := do
  let offset := r.pos
  let (length, r) ← decode_length r
  let (parameter_sizes, r) ← r.readJ 1
  let seg : TilePartLengthsSegment := { offset, length, parameter_sizes }
  let sizes := seg.parameterSizes
  let tilePartSize :=
    (if sizes.contains .ttlm8Bit then 1
     else if sizes.contains .ttlm16Bit then 2 else 0) +
    (if sizes.contains .ptlm16Bit then 2
     else if sizes.contains .ptlm32Bit then 4 else 0)
  let noTilePartLengths := u16sub length 4 / tilePartSize
  let (tile_part_lengths, r) ← decode_tlm_loop sizes noTilePartLengths [] r
  return ({ seg with tile_part_lengths }, r)

/-- The `loop` of `ContiguousCodestream::decode_packet_length`; fuel bounds
the iterations (each consumes one byte). -/
def decode_packet_length (fuel : Nat) (acc : List Nat) (r : ByteReader) :
    Except JpcErr (List Nat × ByteReader) :=
  match fuel with
  | 0 => .error .eof
  | fuel + 1 => do
    let (b, r) ← r.readJ 1
    let byte := b.getD 0 0
    if byte >>> 7 == 0 then
      .ok (acc ++ [((byte <<< 1) % 256) >>> 1], r)
    else
      decode_packet_length fuel (acc ++ [((byte <<< 1) % 256) >>> 2]) r

/-- `ContiguousCodestream::decode_plm`. -/
def decode_plm (r : ByteReader) :
    Except JpcErr (PacketLengthSegment × ByteReader) := do
  let offset := r.pos
  let (length, r) ← decode_length r
  let (index, r) ← r.readJ 1
  let (no_bytes, r) ← r.readJ 1
  let (packet_length, r) ← decode_packet_length (r.data.length + 1) [] r
  return ({ offset, length, index, no_bytes, packet_length }, r)

/-- The per-component loop of `decode_crg`. -/
def decode_crg_loop :
    Nat → ComponentRegistrationSegment → ByteReader →
    Except JpcErr (ComponentRegistrationSegment × ByteReader)
  | 0, seg, r => .ok (seg, r)
  | k + 1, seg, r => do
    let (horizontal_offset, r) ← r.readJ 2
    let (vertical_offset, r) ← r.readJ 2
    decode_crg_loop k
      { seg with horizontal_offset := seg.horizontal_offset ++ [horizontal_offset],
                 vertical_offset := seg.vertical_offset ++ [vertical_offset] } r

/-- `ContiguousCodestream::decode_crg`. -/
def decode_crg (r : ByteReader) (noComponents : Nat) :
    Except JpcErr (ComponentRegistrationSegment × ByteReader) := do
  let offset := r.pos
  let (length, r) ← decode_length r
  decode_crg_loop noComponents { offset, length } r

/-- `ContiguousCodestream::decode_com`; `length - 2 - 2` is a `usize`
subtraction, aborting when `length < 4`. -/
def decode_com (r : ByteReader) :
    Except JpcErr (CommentMarkerSegment × ByteReader) := do
  let (length, r) ← r.readJ 2
  let (registration_value, r) ← r.readJ 2
  if beU16 length < 4 then throw .panicked
  else
    let (comment, r) ← r.readJ (beU16 length - 4)
    return ({ registration_value, comment }, r)

/-- The per-subband loop of `decode_quantization_values`: one byte per value
for the reversible (no-quantization) style, two bytes for the scalar styles,
`todo!()` (a panic) for a reserved style. -/
def decode_quantization_values_loop (style : QuantizationStyle) :
    Nat → List QuantizationValue → ByteReader →
    Except JpcErr (List QuantizationValue × ByteReader)
  | 0, acc, r => .ok (acc, r)
  | k + 1, acc, r =>
    match style with
    | .no _ => do
      let (value, r) ← r.readJ 1
      decode_quantization_values_loop style k (acc ++ [.reversible value]) r
    | .scalarExpounded _ | .scalarDerived _ => do
      let (value, r) ← r.readJ 2
      decode_quantization_values_loop style k (acc ++ [.irreversible value]) r
    | .reserved _ => .error .panicked

/-- `ContiguousCodestream::decode_quantization_values`; the subband count
`no_decomposition_levels * 3 + 1` is `u8` arithmetic. -/
def decode_quantization_values (r : ByteReader) (style : QuantizationStyle)
    (noDecompositionLevels : Nat) :
    Except JpcErr (List QuantizationValue × ByteReader) :=
  let noSubbands := (noDecompositionLevels * 3 + 1) % 256
  decode_quantization_values_loop style noSubbands [] r

/-- `ContiguousCodestream::decode_qcd`.  The decomposition-level count is
derived from the segment length (`(L-4)/3` for the no-quantization style,
`(L-5)/6` for scalar expounded) and is the constant `5` for scalar derived;
the `u16` result is cast `as u8`, hence `% 256`.  A reserved style hits the
`panic!()` arm. -/
def decode_qcd (r : ByteReader) :
    Except JpcErr (QuantizationDefaultMarkerSegment × ByteReader) := do
  let (length, r) ← decode_length r
  let (quantization_style, r) ← r.readJ 1
  let seg : QuantizationDefaultMarkerSegment := { length, quantization_style }
  let noDecompositionLevels ←
    match seg.quantizationStyle with
    | .no _ => pure (u16sub length 4 / 3 % 256)
    | .scalarDerived _ => pure 5
    | .scalarExpounded _ => pure (u16sub length 5 / 6 % 256)
    | .reserved _ => (.error .panicked : Except JpcErr Nat)
  let (values, r) ←
    decode_quantization_values r seg.quantizationStyle noDecompositionLevels
  return ({ seg with values }, r)

/-- `ContiguousCodestream::decode_qcc`; as `decode_qcd` but with a component
index and the `(L-5)/3`, `6`, `(L-6)/6` level formulas, plus one extra level
when `Csiz ≥ 257` (`u8` wrapping increment). -/
def decode_qcc (r : ByteReader) (noComponents : Nat) :
    Except JpcErr (QuantizationComponentSegment × ByteReader) := do
  let offset := r.pos
  let (length, r) ← decode_length r
  let (component_index, r) ← decode_component_index r noComponents
  let (quantization_style, r) ← r.readJ 1
  let seg : QuantizationComponentSegment :=
    { offset, length, component_index, quantization_style }
  let noDecompositionLevels ←
    match seg.quantizationStyle with
    | .no _ => pure (u16sub length 5 / 3 % 256)
    | .scalarDerived _ => pure 6
    | .scalarExpounded _ => pure (u16sub length 6 / 6 % 256)
    | .reserved _ => (.error .panicked : Except JpcErr Nat)
  let noDecompositionLevels :=
    if noComponents ≥ 257 then (noDecompositionLevels + 1) % 256
    else noDecompositionLevels
  let (values, r) ←
    decode_quantization_values r seg.quantizationStyle noDecompositionLevels
  return ({ seg with quantization_values := values }, r)

/-- `struct Header` of the `jpc` crate (main-header contents). -/
structure Header where
  image_and_tile_size_marker_segment : ImageAndTileSizeMarkerSegment := {}
  coding_style_marker_segment : Option CodingStyleMarkerSegment := none
  coding_style_component_segment : List CodingStyleComponentSegment := []
  quantization_default_marker_segment :
    Option QuantizationDefaultMarkerSegment := none
  quantization_component_segments : List QuantizationComponentSegment := []
  regions : List RegionOfInterestSegment := []
  progression_order_change : Option ProgressionOrderChangeSegment := none
  packed_packet_headers : List PackedPacketHeaderSegment := []
  tile_part_lengths : Option TilePartLengthsSegment := none
  packet_lengths : List PacketLengthSegment := []
  component_registration : Option ComponentRegistrationSegment := none
  comment_marker_segments : List CommentMarkerSegment := []
  deriving Repr, DecidableEq, Inhabited

/-- One iteration body of the main-header marker loop: dispatch on the
marker just read and decode the corresponding segment.  Returns the updated
header; `SOT` is handled by the caller. -/
def main_header_step (marker : List Nat) (noComponents : Nat)
    (header : Header) (r : ByteReader) :
    Except JpcErr (Header × ByteReader) := do
  if marker == [255, 83] then      -- COC
    let (seg, r) ← decode_coc r noComponents
    return ({ header with coding_style_component_segment :=
      header.coding_style_component_segment ++ [seg] }, r)
  else if marker == [255, 92] then -- QCD
    let (seg, r) ← decode_qcd r
    return ({ header with quantization_default_marker_segment := some seg }, r)
  else if marker == [255, 82] then -- COD
    let (seg, r) ← decode_cod r
    return ({ header with coding_style_marker_segment := some seg }, r)
  else if marker == [255, 93] then -- QCC
    let (seg, r) ← decode_qcc r noComponents
    return ({ header with quantization_component_segments :=
      header.quantization_component_segments ++ [seg] }, r)
  else if marker == [255, 94] then -- RGN
    let (seg, r) ← decode_rgn r noComponents
    return ({ header with regions := header.regions ++ [seg] }, r)
  else if marker == [255, 95] then -- POC
    let (seg, r) ← decode_poc r noComponents
    return ({ header with progression_order_change := some seg }, r)
  else if marker == [255, 96] then -- PPM
    let (seg, r) ← decode_ppm r
    return ({ header with packed_packet_headers :=
      header.packed_packet_headers ++ [seg] }, r)
  else if marker == [255, 85] then -- TLM
    let (seg, r) ← decode_tlm r
    return ({ header with tile_part_lengths := some seg }, r)
  else if marker == [255, 87] then -- PLM
    let (seg, r) ← decode_plm r
    return ({ header with packet_lengths := header.packet_lengths ++ [seg] }, r)
  else if marker == [255, 99] then -- CRG
    let (seg, r) ← decode_crg r noComponents
    return ({ header with component_registration := some seg }, r)
  else if marker == [255, 100] then -- COM
    let (seg, r) ← decode_com r
    return ({ header with comment_marker_segments :=
      header.comment_marker_segments ++ [seg] }, r)
  else
    throw (.markerUnexpected (marker.getD 0 0, marker.getD 1 0) (r.pos - 2))

/-- The main-header marker loop: read a 2-byte marker; on `SOT` seek back
two bytes and stop; otherwise run `main_header_step`.  Fuel bounds the
iterations (each consumes at least the two marker bytes). -/
def main_header_loop (noComponents : Nat) :
    Nat → Header → ByteReader → Except JpcErr (Header × ByteReader)
  | 0, _, _ => .error .eof
  | fuel + 1, header, r => do
    let (marker, r) ← r.readJ 2
    if marker == [255, 144] then -- SOT: seek back and break
      .ok (header, { r with pos := r.pos - 2 })
    else do
      let (header, r) ← main_header_step marker noComponents header r
      main_header_loop noComponents fuel header r

/-- `ContiguousCodestream::decode_main_header`: `SOC` then `SIZ` then the
marker loop, then the required-marker and per-component-count checks. -/
def decode_main_header (fuel : Nat) (r : ByteReader) :
    Except JpcErr (Header × ByteReader) := do
  let (marker, r) ← r.readJ 2
  if marker != [255, 79] then
    throw (.markerUnexpected MARKER_SYMBOL_SOC (r.pos - 2))
  else
    let (marker, r) ← r.readJ 2
    if marker != [255, 81] then
      throw (.markerUnexpected MARKER_SYMBOL_SIZ (r.pos - 2))
    else
      let (siz, r) ← decode_siz r
      let noComponents := siz.noComponents
      let header : Header := { image_and_tile_size_marker_segment := siz }
      let (header, r) ← main_header_loop noComponents fuel header r
      if header.quantization_default_marker_segment.isNone then
        throw (.markerMissing MARKER_SYMBOL_QCD)
      else if header.coding_style_marker_segment.isNone then
        throw (.markerMissing MARKER_SYMBOL_COD)
      else if header.coding_style_component_segment.length > noComponents then
        throw (.markerError MARKER_SYMBOL_COC
          "number of coding style component segments exceeds Csiz")
      else if header.regions.length > noComponents then
        throw (.markerError MARKER_SYMBOL_RGN
          "number of region of interest segments exceeds Csiz")
      else if header.quantization_component_segments.length > noComponents then
        throw (.markerError MARKER_SYMBOL_QCC
          "number of quantization component segments exceeds Csiz")
      else
        return (header, r)

/-! ## JP2 box parser (`src/jp2/src/lib.rs`) -/

/-- Error outcome of the JP2 decoders: a `JP2Error` variant, a propagated
end-of-file `io` error, or a panic. -/
inductive Jp2Err where
  | invalidSignature (signature : List Nat) (offset : Nat)
  | invalidBrand (brand : List Nat) (offset : Nat)
  | unsupported
  | notCompatible (compatibilityList : List (List Nat))
  | boxUnexpected (boxType : List Nat) (offset : Nat)
  | boxDuplicate (boxType : List Nat) (offset : Nat)
  | boxMalformed (boxType : List Nat) (offset : Nat)
  | boxMissing (boxType : List Nat)
  | eof
  | panicked
  deriving Repr, DecidableEq

/-- `read_exact` lifted into the `Except` monad of the JP2 parser. -/
def ByteReader.readP (r : ByteReader) (n : Nat) :
    Except Jp2Err (List Nat × ByteReader) :=
  match r.readExact n with
  | some x => .ok x
  | none => .error .eof

/-- Wrapping `u64` subtraction (`a - b` in release-mode Rust), for
`a < 2^64` and `b ≤ 2^64`. -/
def u64sub (a b : Nat) : Nat :=
  (a + 18446744073709551616 - b) % 18446744073709551616

def BOX_TYPE_SIGNATURE : List Nat := [106, 80, 32, 32]
def BOX_TYPE_FILE_TYPE : List Nat := [102, 116, 121, 112]
def BOX_TYPE_HEADER : List Nat := [106, 112, 50, 104]
def BOX_TYPE_IMAGE_HEADER : List Nat := [105, 104, 100, 114]
def BOX_TYPE_BITS_PER_COMPONENT : List Nat := [98, 112, 99, 99]
def BOX_TYPE_COLOUR_SPECIFICATION : List Nat := [99, 111, 108, 114]
def BOX_TYPE_PALETTE : List Nat := [112, 99, 108, 114]
def BOX_TYPE_COMPONENT_MAPPING : List Nat := [99, 109, 97, 112]
def BOX_TYPE_CHANNEL_DEFINITION : List Nat := [99, 100, 101, 102]
def BOX_TYPE_RESOLUTION : List Nat := [114, 101, 115, 32]
def BOX_TYPE_CAPTURE_RESOLUTION : List Nat := [114, 101, 115, 99]
def BOX_TYPE_DEFAULT_DISPLAY_RESOLUTION : List Nat := [114, 101, 115, 100]
def BOX_TYPE_CONTIGUOUS_CODESTREAM : List Nat := [106, 112, 50, 99]
def BOX_TYPE_INTELLECTUAL_PROPERTY : List Nat := [106, 112, 50, 105]
def BOX_TYPE_XML : List Nat := [120, 109, 108, 32]
def BOX_TYPE_UUID : List Nat := [117, 117, 105, 100]
def BOX_TYPE_UUID_INFO : List Nat := [117, 105, 110, 102]
def BOX_TYPE_UUID_LIST : List Nat := [117, 108, 115, 116]
def BOX_TYPE_DATA_ENTRY_URL : List Nat := [117, 114, 108, 32]

/-- `jp2\x20` brand. -/
def BRAND_JP2 : List Nat := [106, 112, 50, 32]
/-- `jpx\x20` brand. -/
def BRAND_JPX : List Nat := [106, 112, 120, 32]
/-- `<CR><LF><0x87><LF>` signature payload. -/
def SIGNATURE_MAGIC : List Nat := [13, 10, 135, 10]

/-- `enum BoxTypes`. -/
inductive BoxTypes where
  | signature | fileType | header | imageHeader | bitsPerComponent
  | colourSpecification | palette | componentMapping | channelDefinition
  | resolution | captureResolution | defaultDisplayResolution
  | contiguousCodestream | intellectualProperty | xml | uuid
  | uuidInfo | uuidList | dataEntryURL | unknown
  deriving Repr, DecidableEq

/-- `BoxTypes::new(value)`. -/
def BoxTypes.new (value : List Nat) : BoxTypes :=
  if value == BOX_TYPE_SIGNATURE then .signature
  else if value == BOX_TYPE_FILE_TYPE then .fileType
  else if value == BOX_TYPE_HEADER then .header
  else if value == BOX_TYPE_IMAGE_HEADER then .imageHeader
  else if value == BOX_TYPE_BITS_PER_COMPONENT then .bitsPerComponent
  else if value == BOX_TYPE_COLOUR_SPECIFICATION then .colourSpecification
  else if value == BOX_TYPE_PALETTE then .palette
  else if value == BOX_TYPE_COMPONENT_MAPPING then .componentMapping
  else if value == BOX_TYPE_CHANNEL_DEFINITION then .channelDefinition
  else if value == BOX_TYPE_RESOLUTION then .resolution
  else if value == BOX_TYPE_CAPTURE_RESOLUTION then .captureResolution
  else if value == BOX_TYPE_DEFAULT_DISPLAY_RESOLUTION then
    .defaultDisplayResolution
  else if value == BOX_TYPE_CONTIGUOUS_CODESTREAM then .contiguousCodestream
  else if value == BOX_TYPE_INTELLECTUAL_PROPERTY then .intellectualProperty
  else if value == BOX_TYPE_XML then .xml
  else if value == BOX_TYPE_UUID then .uuid
  else if value == BOX_TYPE_UUID_INFO then .uuidInfo
  else if value == BOX_TYPE_UUID_LIST then .uuidList
  else if value == BOX_TYPE_DATA_ENTRY_URL then .dataEntryURL
  else .unknown

/-- `struct BoxHeader`. -/
structure BoxHeader where
  box_length : Nat
  box_type : List Nat
  header_length : Nat
  deriving Repr, DecidableEq, Inhabited

/-- `fn decode_box_header`: 4-byte big-endian length `L`, 4-byte type; on
`L = 1` an 8-byte extended length `XL` with payload `XL - 16` (wrapping
`u64` subtraction) and header size 16; on `L = 0` the payload extends to the
end of the file (the caller computes it); on `2 ≤ L ≤ 7` the source
`panic!`s (`"unsupported reserved box length"`); otherwise payload `L - 8`
and header size 8. -/
def decode_box_header (r : ByteReader) :
    Except Jp2Err (BoxHeader × ByteReader) := do
  let (lenBytes, r) ← r.readP 4
  let boxLengthValue := beU32 lenBytes
  if boxLengthValue == 0 then
    let (box_type, r) ← r.readP 4
    return ({ box_length := boxLengthValue, box_type, header_length := 8 }, r)
  else if boxLengthValue == 1 then
    let (box_type, r) ← r.readP 4
    let (xlLength, r) ← r.readP 8
    return ({ box_length := u64sub (beU64 xlLength) 16, box_type,
              header_length := 16 }, r)
  else if boxLengthValue ≤ 7 then
    throw .panicked
  else
    let (box_type, r) ← r.readP 4
    return ({ box_length := boxLengthValue - 8, box_type,
              header_length := 8 }, r)

/-- `struct SignatureBox`. -/
structure SignatureBox where
  length : Nat := 0
  offset : Nat := 0
  deriving Repr, DecidableEq, Inhabited

/-- `SignatureBox::decode`: fixed 4-byte magic check. -/
def SignatureBox.decode (b : SignatureBox) (r : ByteReader) :
    Except Jp2Err (SignatureBox × ByteReader) := do
  let b := { b with length := 12 }
  let (buffer, r) ← r.readP 4
  if buffer != SIGNATURE_MAGIC then
    throw (.invalidSignature buffer r.pos)
  else
    return (b, r)

/-- `struct FileTypeBox`. -/
structure FileTypeBox where
  length : Nat := 0
  offset : Nat := 0
  brand : List Nat := []
  min_version : List Nat := []
  compatibility_list : List (List Nat) := []
  deriving Repr, DecidableEq, Inhabited

/-- The compatibility-list read loop of `FileTypeBox::decode`. -/
def fileTypeCompatLoop :
    Nat → List (List Nat) → ByteReader →
    Except Jp2Err (List (List Nat) × ByteReader)
  | 0, acc, r => .ok (acc, r)
  | k + 1, acc, r => do
    let (buffer, r) ← r.readP 4
    fileTypeCompatLoop k (acc ++ [buffer]) r

/-- `FileTypeBox::decode`: brand (rejecting `jpx ` as `Unsupported` and any
other non-`jp2 ` brand as `InvalidBrand`), minor version, then
`(length - 8) / 4` compatibility entries (wrapping `u64` subtraction), which
must contain `jp2 `. -/
def FileTypeBox.decode (b : FileTypeBox) (r : ByteReader) :
    Except Jp2Err (FileTypeBox × ByteReader) := do
  let (brand, r) ← r.readP 4
  if brand == BRAND_JPX then
    throw .unsupported
  else if brand != BRAND_JP2 then
    throw (.invalidBrand brand r.pos)
  else
    let (min_version, r) ← r.readP 4
    let size := u64sub b.length 8 / 4
    let (compatibility_list, r) ← fileTypeCompatLoop size [] r
    if ¬ compatibility_list.contains BRAND_JP2 then
      throw (.notCompatible compatibility_list)
    else
      return ({ b with brand, min_version, compatibility_list }, r)

/-- `struct ImageHeaderBox`. -/
structure ImageHeaderBox where
  length : Nat := 0
  offset : Nat := 0
  height : List Nat := []
  width : List Nat := []
  components_num : List Nat := []
  components_bits : List Nat := []
  compression_type : List Nat := []
  colourspace_unknown : List Nat := []
  intellectual_property : List Nat := []
  deriving Repr, DecidableEq, Inhabited

def ImageHeaderBox.componentsNum (b : ImageHeaderBox) : Nat :=
  beU16 b.components_num

/-- `ImageHeaderBox::decode`: fixed 14-byte payload. -/
def ImageHeaderBox.decode (b : ImageHeaderBox) (r : ByteReader) :
    Except Jp2Err (ImageHeaderBox × ByteReader) := do
  let (height, r) ← r.readP 4
  let (width, r) ← r.readP 4
  let (components_num, r) ← r.readP 2
  let (components_bits, r) ← r.readP 1
  let (compression_type, r) ← r.readP 1
  let (colourspace_unknown, r) ← r.readP 1
  let (intellectual_property, r) ← r.readP 1
  let b := { b with
             height := height, width := width,
             components_num := components_num,
             components_bits := components_bits,
             compression_type := compression_type,
             colourspace_unknown := colourspace_unknown,
             intellectual_property := intellectual_property }
  return (b, r)

/-- `struct Channel` of the Channel Definition box. -/
structure Channel where
  channel_index : List Nat := []
  channel_type : List Nat := []
  channel_association : List Nat := []
  deriving Repr, DecidableEq, Inhabited

/-- `struct ChannelDefinitionBox`. -/
structure ChannelDefinitionBox where
  length : Nat := 0
  offset : Nat := 0
  channels : List Channel := []
  deriving Repr, DecidableEq, Inhabited

/-- The `while size > 0` loop of `ChannelDefinitionBox::decode`. -/
def channelDefLoop :
    Nat → List Channel → ByteReader → Except Jp2Err (List Channel × ByteReader)
  | 0, acc, r => .ok (acc, r)
  | k + 1, acc, r => do
    let (channel_index, r) ← r.readP 2
    let (channel_type, r) ← r.readP 2
    let (channel_association, r) ← r.readP 2
    channelDefLoop k
      (acc ++ [{ channel_index, channel_type, channel_association }]) r

/-- `ChannelDefinitionBox::decode`. -/
def ChannelDefinitionBox.decode (b : ChannelDefinitionBox) (r : ByteReader) :
    Except Jp2Err (ChannelDefinitionBox × ByteReader) := do
  let (noChannelDescriptions, r) ← r.readP 2
  let (channels, r) ← channelDefLoop (beU16 noChannelDescriptions) [] r
  return ({ b with channels }, r)

/-- `enum ComponentMapType`. -/
inductive ComponentMapType where
  | direct
  | palette
  | reserved (value : List Nat)
  deriving Repr, DecidableEq

/-- `ComponentMapType::new(value)`. -/
def ComponentMapType.new (value : List Nat) : ComponentMapType :=
  if value == [1] then .direct
  else if value == [2] then .palette
  else .reserved value

/-- `struct ComponentMap`. -/
structure ComponentMap where
  component : List Nat := []
  mapping_type : ComponentMapType := .reserved [255]
  palette : List Nat := []
  deriving Repr, DecidableEq

instance : Inhabited ComponentMap := ⟨{}⟩

/-- `struct ComponentMappingBox`. -/
structure ComponentMappingBox where
  length : Nat := 0
  offset : Nat := 0
  mapping : List ComponentMap := []
  deriving Repr, DecidableEq, Inhabited

/-- The `while index < self.length` loop of `ComponentMappingBox::decode`:
`index` starts at 0 and advances by 4 per mapping, so the loop body runs
`⌈length / 4⌉` times; the argument counts the remaining iterations. -/
def componentMappingLoop :
    Nat → List ComponentMap → ByteReader →
    Except Jp2Err (List ComponentMap × ByteReader)
  | 0, acc, r => .ok (acc, r)
  | k + 1, acc, r => do
    let (component, r) ← r.readP 2
    let (mappingType, r) ← r.readP 1
    let (palette, r) ← r.readP 1
    componentMappingLoop k
      (acc ++ [{ component, mapping_type := ComponentMapType.new mappingType,
                 palette }]) r

/-- `ComponentMappingBox::decode`. -/
def ComponentMappingBox.decode (b : ComponentMappingBox) (r : ByteReader) :
    Except Jp2Err (ComponentMappingBox × ByteReader) := do
  let (mapping, r) ← componentMappingLoop ((b.length + 3) / 4) [] r
  return ({ b with mapping }, r)

/-- `struct GeneratedComponent` of the Palette box. -/
structure GeneratedComponent where
  bit_depth : List Nat := []
  values : List Nat := []
  deriving Repr, DecidableEq, Inhabited

/-- `struct PaletteBox`. -/
structure PaletteBox where
  length : Nat := 0
  offset : Nat := 0
  num_entries : List Nat := []
  num_components : List Nat := []
  generated_components : List GeneratedComponent := []
  deriving Repr, DecidableEq, Inhabited

def PaletteBox.numEntries (b : PaletteBox) : Nat := beU16 b.num_entries
def PaletteBox.numComponents (b : PaletteBox) : Nat :=
  b.num_components.getD 0 0

/-- The first loop of `PaletteBox::decode`: one bit-depth byte per generated
component. -/
def paletteBitDepthLoop :
    Nat → List GeneratedComponent → ByteReader →
    Except Jp2Err (List GeneratedComponent × ByteReader)
  | 0, acc, r => .ok (acc, r)
  | k + 1, acc, r => do
    let (bit_depth, r) ← r.readP 1
    paletteBitDepthLoop k (acc ++ [{ bit_depth }]) r

/-- The inner `while j < num_entries` loop of `PaletteBox::decode`: one byte
per entry. -/
def paletteEntriesLoop :
    Nat → List Nat → ByteReader → Except Jp2Err (List Nat × ByteReader)
  | 0, acc, r => .ok (acc, r)
  | k + 1, acc, r => do
    let (entry, r) ← r.readP 1
    paletteEntriesLoop k (acc ++ [entry.getD 0 0]) r

/-- The second loop of `PaletteBox::decode`: the entry values of each
generated component in turn. -/
def paletteValuesLoop (numEntries : Nat) :
    List GeneratedComponent → List GeneratedComponent → ByteReader →
    Except Jp2Err (List GeneratedComponent × ByteReader)
  | [], acc, r => .ok (acc, r)
  | gc :: rest, acc, r => do
    let (values, r) ← paletteEntriesLoop numEntries [] r
    paletteValuesLoop numEntries rest (acc ++ [{ gc with values }]) r

/-- `PaletteBox::decode`. -/
def PaletteBox.decode (b : PaletteBox) (r : ByteReader) :
    Except Jp2Err (PaletteBox × ByteReader) := do
  let (num_entries, r) ← r.readP 2
  let (num_components, r) ← r.readP 1
  let b := { b with num_entries, num_components }
  let (gcs, r) ← paletteBitDepthLoop b.numComponents [] r
  let (generated_components, r) ← paletteValuesLoop b.numEntries gcs [] r
  return ({ b with generated_components }, r)

/-- `struct BitsPerComponentBox`. -/
structure BitsPerComponentBox where
  length : Nat := 0
  offset : Nat := 0
  components_num : Nat := 0
  bits_per_component : List Nat := []
  deriving Repr, DecidableEq, Inhabited

/-- `BitsPerComponentBox::decode`: the buffer is pre-sized to the component
count of the Image Header box. -/
def BitsPerComponentBox.decode (b : BitsPerComponentBox) (r : ByteReader) :
    Except Jp2Err (BitsPerComponentBox × ByteReader) := do
  let (bits_per_component, r) ← r.readP b.components_num
  return ({ b with bits_per_component }, r)

/-- `enum ColourSpecificationMethods`. -/
inductive ColourSpecificationMethods where
  | enumeratedColourSpace
  | restrictedICCProfile
  | reserved (value : List Nat)
  deriving Repr, DecidableEq

/-- `ColourSpecificationMethods::new(value)`. -/
def ColourSpecificationMethods.new (value : List Nat) :
    ColourSpecificationMethods :=
  if value == [1] then .enumeratedColourSpace
  else if value == [2] then .restrictedICCProfile
  else .reserved value

/-- `struct ColourSpecificationBox`. -/
structure ColourSpecificationBox where
  length : Nat := 0
  offset : Nat := 0
  method : List Nat := []
  precedence : List Nat := []
  colourspace_approximation : List Nat := []
  enumerated_colour_space : List Nat := []
  restricted_icc_profile : List Nat := []
  deriving Repr, DecidableEq, Inhabited

/-- `ColourSpecificationBox::decode`.  For the restricted-ICC method the
profile bytes are read into a local and discarded, as in the source; the
`length - 3` buffer size is a `usize` subtraction. -/
def ColourSpecificationBox.decode (b : ColourSpecificationBox)
    (r : ByteReader) : Except Jp2Err (ColourSpecificationBox × ByteReader) := do
  let (method, r) ← r.readP 1
  let (precedence, r) ← r.readP 1
  let (colourspace_approximation, r) ← r.readP 1
  let b := { b with method, precedence, colourspace_approximation }
  match ColourSpecificationMethods.new b.method with
  | .enumeratedColourSpace => do
    let (enumerated_colour_space, r) ← r.readP 4
    return ({ b with enumerated_colour_space }, r)
  | .restrictedICCProfile =>
    if b.length < 3 then throw .panicked
    else do
      let (_, r) ← r.readP (b.length - 3)
      return (b, r)
  | .reserved _ => return (b, r)

/-- `struct CaptureResolutionBox`. -/
structure CaptureResolutionBox where
  length : Nat := 0
  offset : Nat := 0
  vertical_capture_grid_resolution_numerator : List Nat := []
  vertical_capture_grid_resolution_denominator : List Nat := []
  horizontal_capture_grid_resolution_numerator : List Nat := []
  horizontal_capture_grid_resolution_denominator : List Nat := []
  vertical_capture_grid_resolution_exponent : List Nat := []
  horizontal_capture_grid_resolution_exponent : List Nat := []
  deriving Repr, DecidableEq, Inhabited

/-- `CaptureResolutionBox::decode`. -/
def CaptureResolutionBox.decode (b : CaptureResolutionBox) (r : ByteReader) :
    Except Jp2Err (CaptureResolutionBox × ByteReader) := do
  let (vn, r) ← r.readP 2
  let (vd, r) ← r.readP 2
  let (hn, r) ← r.readP 2
  let (hd, r) ← r.readP 2
  let (ve, r) ← r.readP 1
  let (he, r) ← r.readP 1
  return ({ b with
    vertical_capture_grid_resolution_numerator := vn,
    vertical_capture_grid_resolution_denominator := vd,
    horizontal_capture_grid_resolution_numerator := hn,
    horizontal_capture_grid_resolution_denominator := hd,
    vertical_capture_grid_resolution_exponent := ve,
    horizontal_capture_grid_resolution_exponent := he }, r)

/-- `struct DefaultDisplayResolutionBox`. -/
structure DefaultDisplayResolutionBox where
  length : Nat := 0
  offset : Nat := 0
  vertical_display_grid_resolution_numerator : List Nat := []
  vertical_display_grid_resolution_denominator : List Nat := []
  horizontal_display_grid_resolution_numerator : List Nat := []
  horizontal_display_grid_resolution_denominator : List Nat := []
  vertical_display_grid_resolution_exponent : List Nat := []
  horizontal_display_grid_resolution_exponent : List Nat := []
  deriving Repr, DecidableEq, Inhabited

/-- `DefaultDisplayResolutionBox::decode`. -/
def DefaultDisplayResolutionBox.decode (b : DefaultDisplayResolutionBox)
    (r : ByteReader) :
    Except Jp2Err (DefaultDisplayResolutionBox × ByteReader) := do
  let (vn, r) ← r.readP 2
  let (vd, r) ← r.readP 2
  let (hn, r) ← r.readP 2
  let (hd, r) ← r.readP 2
  let (ve, r) ← r.readP 1
  let (he, r) ← r.readP 1
  return ({ b with
    vertical_display_grid_resolution_numerator := vn,
    vertical_display_grid_resolution_denominator := vd,
    horizontal_display_grid_resolution_numerator := hn,
    horizontal_display_grid_resolution_denominator := hd,
    vertical_display_grid_resolution_exponent := ve,
    horizontal_display_grid_resolution_exponent := he }, r)

/-- `struct ResolutionSuperBox`. -/
structure ResolutionSuperBox where
  length : Nat := 0
  offset : Nat := 0
  capture_resolution_box : Option CaptureResolutionBox := none
  default_display_resolution_box : Option DefaultDisplayResolutionBox := none
  deriving Repr, DecidableEq, Inhabited

/-- The child loop of `ResolutionSuperBox::decode`: `resc` and `resd`
children (each at most once, duplicates are `BoxUnexpected`), any other type
seeks back one header and stops. -/
def resolutionLoop :
    Nat → ResolutionSuperBox → ByteReader →
    Except Jp2Err (ResolutionSuperBox × ByteReader)
  | 0, _, _ => .error .eof
  | fuel + 1, b, r => do
    let (bh, r) ← decode_box_header r
    match BoxTypes.new bh.box_type with
    | .captureResolution =>
      if b.capture_resolution_box.isSome then
        throw (.boxUnexpected BOX_TYPE_CAPTURE_RESOLUTION r.pos)
      else do
        let box : CaptureResolutionBox :=
          { length := bh.box_length, offset := r.pos }
        let (box, r) ← box.decode r
        resolutionLoop fuel { b with capture_resolution_box := some box } r
    | .defaultDisplayResolution =>
      if b.default_display_resolution_box.isSome then
        throw (.boxUnexpected BOX_TYPE_DEFAULT_DISPLAY_RESOLUTION r.pos)
      else do
        let box : DefaultDisplayResolutionBox :=
          { length := bh.box_length, offset := r.pos }
        let (box, r) ← box.decode r
        resolutionLoop fuel
          { b with default_display_resolution_box := some box } r
    | _ =>
      .ok (b, { r with pos := r.pos - bh.header_length })

/-- `ResolutionSuperBox::decode`: child loop, then the requirement that at
least one of `resc`/`resd` is present (otherwise `BoxMalformed`). -/
def ResolutionSuperBox.decode (fuel : Nat) (b : ResolutionSuperBox)
    (r : ByteReader) : Except Jp2Err (ResolutionSuperBox × ByteReader) := do
  let (b, r) ← resolutionLoop fuel b r
  if b.capture_resolution_box.isNone
      ∧ b.default_display_resolution_box.isNone then
    throw (.boxMalformed BOX_TYPE_RESOLUTION b.offset)
  else
    return (b, r)

/-- `struct HeaderSuperBox` (`jp2h`). -/
structure HeaderSuperBox where
  length : Nat := 0
  offset : Nat := 0
  image_header_box : ImageHeaderBox := {}
  bits_per_component_box : Option BitsPerComponentBox := none
  colour_specification_boxes : List ColourSpecificationBox := []
  palette_box : Option PaletteBox := none
  component_mapping_box : Option ComponentMappingBox := none
  channel_definition_box : Option ChannelDefinitionBox := none
  resolution_box : Option ResolutionSuperBox := none
  deriving Repr, DecidableEq, Inhabited

/-- The sibling loop of `HeaderSuperBox::decode` (after the mandatory
`ihdr`): a second `ihdr` is ignored, `colr` is appended, `bpcc` / `pclr` /
`cmap` / `cdef` / `res ` each at most once (`BoxDuplicate`), an unknown type
stops the loop, a recognised top-level type seeks back one header and
stops. -/
def headerSuperBoxLoop :
    Nat → HeaderSuperBox → ByteReader →
    Except Jp2Err (HeaderSuperBox × ByteReader)
  | 0, _, _ => .error .eof
  | fuel + 1, b, r => do
    let (bh, r) ← decode_box_header r
    match BoxTypes.new bh.box_type with
    | .imageHeader =>
      -- instances of Image Header box in other places shall be ignored
      headerSuperBoxLoop fuel b r
    | .colourSpecification => do
      let box : ColourSpecificationBox :=
        { length := bh.box_length, offset := r.pos,
          method := [0], precedence := [0], colourspace_approximation := [0],
          enumerated_colour_space := [0, 0, 0, 0] }
      let (box, r) ← box.decode r
      headerSuperBoxLoop fuel
        { b with colour_specification_boxes :=
            b.colour_specification_boxes ++ [box] } r
    | .bitsPerComponent =>
      if b.bits_per_component_box.isSome then
        throw (.boxDuplicate BOX_TYPE_BITS_PER_COMPONENT r.pos)
      else do
        let componentsNum := b.image_header_box.componentsNum
        let box : BitsPerComponentBox :=
          { components_num := componentsNum, length := bh.box_length,
            offset := r.pos }
        let (box, r) ← box.decode r
        headerSuperBoxLoop fuel { b with bits_per_component_box := some box } r
    | .palette =>
      if b.palette_box.isSome then
        throw (.boxDuplicate BOX_TYPE_PALETTE r.pos)
      else do
        let box : PaletteBox := { length := bh.box_length, offset := r.pos }
        let (box, r) ← box.decode r
        headerSuperBoxLoop fuel { b with palette_box := some box } r
    | .componentMapping =>
      if b.component_mapping_box.isSome then
        throw (.boxDuplicate BOX_TYPE_COMPONENT_MAPPING r.pos)
      else do
        let box : ComponentMappingBox :=
          { length := bh.box_length, offset := r.pos }
        let (box, r) ← box.decode r
        headerSuperBoxLoop fuel { b with component_mapping_box := some box } r
    | .channelDefinition =>
      if b.channel_definition_box.isSome then
        throw (.boxDuplicate BOX_TYPE_CHANNEL_DEFINITION r.pos)
      else do
        let box : ChannelDefinitionBox :=
          { length := bh.box_length, offset := r.pos }
        let (box, r) ← box.decode r
        headerSuperBoxLoop fuel { b with channel_definition_box := some box } r
    | .resolution =>
      if b.resolution_box.isSome then
        throw (.boxDuplicate BOX_TYPE_RESOLUTION r.pos)
      else do
        let box : ResolutionSuperBox :=
          { length := bh.box_length, offset := r.pos }
        let (box, r) ← ResolutionSuperBox.decode fuel box r
        headerSuperBoxLoop fuel { b with resolution_box := some box } r
    | .unknown =>
      .ok (b, r)
    | _ =>
      .ok (b, { r with pos := r.pos - bh.header_length })

/-- `HeaderSuperBox::decode`: mandatory first `ihdr` child (anything else is
`BoxUnexpected`), then the sibling loop, then the requirement of at least
one `colr` (otherwise `BoxMalformed`). -/
def HeaderSuperBox.decode (fuel : Nat) (b : HeaderSuperBox) (r : ByteReader) :
    Except Jp2Err (HeaderSuperBox × ByteReader) := do
  let (bh, r) ← decode_box_header r
  if bh.box_type != BOX_TYPE_IMAGE_HEADER then
    throw (.boxUnexpected bh.box_type r.pos)
  else
    let ihdr : ImageHeaderBox := { length := bh.box_length, offset := r.pos }
    let (ihdr, r) ← ihdr.decode r
    let b := { b with image_header_box := ihdr }
    let (b, r) ← headerSuperBoxLoop fuel b r
    if b.colour_specification_boxes.isEmpty then
      throw (.boxMalformed BOX_TYPE_IMAGE_HEADER r.pos)
    else
      return (b, r)

/-- `struct IntellectualPropertyBox`. -/
structure IntellectualPropertyBox where
  length : Nat := 0
  offset : Nat := 0
  data : List Nat := []
  deriving Repr, DecidableEq, Inhabited

/-- `IntellectualPropertyBox::decode`. -/
def IntellectualPropertyBox.decode (b : IntellectualPropertyBox)
    (r : ByteReader) :
    Except Jp2Err (IntellectualPropertyBox × ByteReader) := do
  let (data, r) ← r.readP b.length
  return ({ b with data }, r)

/-- `struct XMLBox`. -/
structure XMLBox where
  length : Nat := 0
  offset : Nat := 0
  xml : List Nat := []
  deriving Repr, DecidableEq, Inhabited

/-- `XMLBox::decode`. -/
def XMLBox.decode (b : XMLBox) (r : ByteReader) :
    Except Jp2Err (XMLBox × ByteReader) := do
  let (xml, r) ← r.readP b.length
  return ({ b with xml }, r)

/-- `struct UUIDBox`. -/
structure UUIDBox where
  length : Nat := 0
  offset : Nat := 0
  uuid : List Nat := []
  data : List Nat := []
  deriving Repr, DecidableEq, Inhabited

/-- `UUIDBox::decode`: 16-byte UUID, then `length - 16` vendor bytes
(`usize` subtraction). -/
def UUIDBox.decode (b : UUIDBox) (r : ByteReader) :
    Except Jp2Err (UUIDBox × ByteReader) := do
  let (uuid, r) ← r.readP 16
  if b.length < 16 then throw .panicked
  else do
    let (data, r) ← r.readP (b.length - 16)
    return ({ b with uuid, data }, r)

/-- `struct UUIDListBox`. -/
structure UUIDListBox where
  length : Nat := 0
  offset : Nat := 0
  number_of_uuids : List Nat := []
  ids : List (List Nat) := []
  deriving Repr, DecidableEq, Inhabited

/-- The UUID read loop of `UUIDListBox::decode`. -/
def uuidListLoop :
    Nat → List (List Nat) → ByteReader →
    Except Jp2Err (List (List Nat) × ByteReader)
  | 0, acc, r => .ok (acc, r)
  | k + 1, acc, r => do
    let (buffer, r) ← r.readP 16
    uuidListLoop k (acc ++ [buffer]) r

/-- `UUIDListBox::decode`; `number_of_uuids` is read as `i16` and cast
`as usize`, so a value `≥ 2^15` becomes a huge count. -/
def UUIDListBox.decode (b : UUIDListBox) (r : ByteReader) :
    Except Jp2Err (UUIDListBox × ByteReader) := do
  let (number_of_uuids, r) ← r.readP 2
  let n := beU16 number_of_uuids
  let size := if n < 32768 then n else 18446744073709551616 - (65536 - n)
  let (ids, r) ← uuidListLoop size [] r
  return ({ b with number_of_uuids, ids }, r)

/-- `struct DataEntryURLBox`. -/
structure DataEntryURLBox where
  length : Nat := 0
  offset : Nat := 0
  version : List Nat := []
  flags : List Nat := []
  location : List Nat := []
  deriving Repr, DecidableEq, Inhabited

/-- The location read loop of `DataEntryURLBox::decode`. -/
def dataEntryUrlLoop :
    Nat → List Nat → ByteReader → Except Jp2Err (List Nat × ByteReader)
  | 0, acc, r => .ok (acc, r)
  | k + 1, acc, r => do
    let (buffer, r) ← r.readP 1
    dataEntryUrlLoop k (acc ++ buffer) r

/-- `DataEntryURLBox::decode`: version, flags, then `length - 4` (wrapping
`u64` subtraction) location bytes. -/
def DataEntryURLBox.decode (b : DataEntryURLBox) (r : ByteReader) :
    Except Jp2Err (DataEntryURLBox × ByteReader) := do
  let (version, r) ← r.readP 1
  let (flags, r) ← r.readP 3
  let (location, r) ← dataEntryUrlLoop (u64sub b.length 4) [] r
  return ({ b with version, flags, location }, r)

/-- `struct UUIDInfoSuperBox`. -/
structure UUIDInfoSuperBox where
  length : Nat := 0
  offset : Nat := 0
  uuid_list : List UUIDListBox := []
  data_entry_url_box : List DataEntryURLBox := []
  deriving Repr, DecidableEq, Inhabited

/-- `struct ContiguousCodestreamBox` (`jp2c`). -/
structure ContiguousCodestreamBox where
  length : Nat := 0
  offset : Nat := 0
  deriving Repr, DecidableEq, Inhabited

/-- `ContiguousCodestreamBox::decode`: length 0 means to end of file (seek
to the end and measure), otherwise skip forward over the payload. -/
def ContiguousCodestreamBox.decode (b : ContiguousCodestreamBox)
    (r : ByteReader) :
    Except Jp2Err (ContiguousCodestreamBox × ByteReader) :=
  if b.length == 0 then
    let r := { r with pos := r.data.length }
    .ok ({ b with length := r.pos - b.offset }, r)
  else
    .ok (b, { r with pos := r.pos + b.length })

/-- `struct JP2File`. -/
structure JP2File where
  length : Nat := 0
  signature : Option SignatureBox := none
  file_type : Option FileTypeBox := none
  header : Option HeaderSuperBox := none
  contiguous_codestreams : List ContiguousCodestreamBox := []
  intellectual_property : Option IntellectualPropertyBox := none
  xml : List XMLBox := []
  uuid : List UUIDBox := []
  deriving Repr, DecidableEq, Inhabited

/-- The mutable locals of the top-level box loop of `decode_jp2`. -/
structure Jp2LoopState where
  header_box_option : Option HeaderSuperBox := none
  contiguous_codestream_boxes : List ContiguousCodestreamBox := []
  intellectual_property_option : Option IntellectualPropertyBox := none
  xml_boxes : List XMLBox := []
  uuid_boxes : List UUIDBox := []
  uuid_info_boxes : List UUIDInfoSuperBox := []
  current_uuid_info_box : Option UUIDInfoSuperBox := none
  deriving Repr, DecidableEq, Inhabited

/-- The top-level box loop of `decode_jp2`: reads box headers until
end-of-file (the loop's only normal exit), dispatching on the box type;
`jp2c` before `jp2h` is `BoxUnexpected`; `ulst` / `url ` outside a `uinf`
group is `BoxMissing`; any box type without an arm hits the source's
`panic!("Unexpected box type …")`. -/
def decodeJp2Loop :
    Nat → Jp2LoopState → ByteReader →
    Except Jp2Err (Jp2LoopState × ByteReader)
  | 0, _, _ => .error .eof
  | fuel + 1, st, r =>
    match decode_box_header r with
    | .error .eof => .ok (st, r)   -- EOF terminates the loop
    | .error e => .error e
    | .ok (bh, r) => do
      match BoxTypes.new bh.box_type with
      | .header => do
        let box : HeaderSuperBox := { length := bh.box_length, offset := r.pos }
        let (box, r) ← HeaderSuperBox.decode fuel box r
        decodeJp2Loop fuel { st with header_box_option := some box } r
      | .intellectualProperty => do
        let box : IntellectualPropertyBox :=
          { length := bh.box_length, offset := r.pos }
        let (box, r) ← box.decode r
        decodeJp2Loop fuel
          { st with intellectual_property_option := some box } r
      | .xml => do
        let box : XMLBox := { length := bh.box_length, offset := r.pos }
        let (box, r) ← box.decode r
        decodeJp2Loop fuel { st with xml_boxes := st.xml_boxes ++ [box] } r
      | .uuid => do
        let box : UUIDBox := { length := bh.box_length, offset := r.pos }
        let (box, r) ← box.decode r
        decodeJp2Loop fuel { st with uuid_boxes := st.uuid_boxes ++ [box] } r
      | .uuidInfo =>
        let box : UUIDInfoSuperBox := { length := bh.box_length, offset := r.pos }
        -- `UUIDInfoSuperBox::decode` reads nothing
        let st :=
          match st.current_uuid_info_box with
          | some infoBox =>
            { st with uuid_info_boxes := st.uuid_info_boxes ++ [infoBox],
                      current_uuid_info_box := some box }
          | none => { st with current_uuid_info_box := some box }
        decodeJp2Loop fuel st r
      | .uuidList => do
        let box : UUIDListBox := { length := bh.box_length, offset := r.pos }
        let (box, r) ← box.decode r
        match st.current_uuid_info_box with
        | some infoBox =>
          let infoBox := { infoBox with uuid_list := infoBox.uuid_list ++ [box] }
          decodeJp2Loop fuel { st with current_uuid_info_box := some infoBox } r
        | none => throw (.boxMissing BOX_TYPE_UUID_INFO)
      | .dataEntryURL => do
        let box : DataEntryURLBox := { length := bh.box_length, offset := r.pos }
        let (box, r) ← box.decode r
        match st.current_uuid_info_box with
        | some infoBox =>
          let infoBox :=
            { infoBox with
              data_entry_url_box := infoBox.data_entry_url_box ++ [box] }
          decodeJp2Loop fuel { st with current_uuid_info_box := some infoBox } r
        | none => throw (.boxMissing BOX_TYPE_UUID_INFO)
      | .contiguousCodestream =>
        -- the Header box shall fall before the Contiguous Codestream box
        if st.header_box_option.isNone then
          throw (.boxUnexpected bh.box_type r.pos)
        else do
          let box : ContiguousCodestreamBox :=
            { length := bh.box_length, offset := r.pos }
          let (box, r) ← box.decode r
          decodeJp2Loop fuel
            { st with contiguous_codestream_boxes :=
                st.contiguous_codestream_boxes ++ [box] } r
      | _ => throw .panicked   -- `panic!("Unexpected box type …")`

/-- `fn decode_jp2`: Signature box first, File Type box second, then the
top-level box loop until end of file. -/
def decode_jp2 (fuel : Nat) (r : ByteReader) :
    Except Jp2Err (JP2File × ByteReader) := do
  let (bh, r) ← decode_box_header r
  let signatureBox : SignatureBox := {}
  if bh.box_type != BOX_TYPE_SIGNATURE then
    throw (.boxUnexpected bh.box_type r.pos)
  else
    let signatureBox :=
      { signatureBox with length := bh.box_length, offset := r.pos }
    let (signatureBox, r) ← signatureBox.decode r
    let (bh, r) ← decode_box_header r
    let fileTypeBox : FileTypeBox := { length := bh.box_length, offset := r.pos }
    if bh.box_type != BOX_TYPE_FILE_TYPE then
      throw (.boxUnexpected bh.box_type r.pos)
    else
      let (fileTypeBox, r) ← fileTypeBox.decode r
      let (st, r) ← decodeJp2Loop fuel {} r
      let st :=
        match st.current_uuid_info_box with
        | some infoBox =>
          { st with uuid_info_boxes := st.uuid_info_boxes ++ [infoBox] }
        | none => st
      let result : JP2File :=
        { length := r.pos,
          signature := some signatureBox,
          file_type := some fileTypeBox,
          header := st.header_box_option,
          contiguous_codestreams := st.contiguous_codestream_boxes,
          intellectual_property := st.intellectual_property_option,
          xml := st.xml_boxes,
          uuid := st.uuid_boxes }
      return (result, r)

/-! ## Concrete inputs used by the theorems below -/

/-- A context-state predicate: the probability-table index is a valid row of
the 47-row `QE_TABLE` and the MPS bit is 0 or 1. -/
def ctxOk (s : ContextState) : Prop := s.index ≤ 46 ∧ s.mps ≤ 1

/-- The nine-bit round-trip input for the MQ coder, all bits under
context 0: the bits `0,0,1,1,0,1,0,0,0` as `(context, bit)` pairs. -/
def mqFailingOps : List (Nat × Nat) :=
  [(0, 0), (0, 0), (0, 1), (0, 1), (0, 0), (0, 1), (0, 0), (0, 0), (0, 0)]

/-- A standard-conformant scalar-derived QCD segment body (after the
marker): `Lqcd = 5`, `Sqcd = 1` (scalar derived, 0 guard bits), and the
single two-byte step size `0x4000` for the NLLL subband. -/
def qcdScalarDerivedConformant : List Nat := [0, 5, 1, 0x40, 0]

/-- The same scalar-derived QCD header followed by 32 bytes of padding, so
that every read the decoder attempts succeeds. -/
def qcdScalarDerivedPadded : List Nat := [0, 5, 1] ++ List.replicate 32 0

/-- A SIZ segment body (after the marker) with
`XTsiz + XTOsiz = 1 + 0 = 1 = XOsiz`, violating the standard's invariant
`XTsiz + XTOsiz > XOsiz`; the grid-offset invariant holds
(`XTOsiz = 0 ≤ 1 = XOsiz`, `YTOsiz = 0 ≤ 0 = YOsiz`) and `Csiz = 0`. -/
def sizViolatingBytes : List Nat :=
  [0, 38, 0, 0,
   0, 0, 0, 1,   -- Xsiz
   0, 0, 0, 1,   -- Ysiz
   0, 0, 0, 1,   -- XOsiz
   0, 0, 0, 0,   -- YOsiz
   0, 0, 0, 1,   -- XTsiz
   0, 0, 0, 1,   -- YTsiz
   0, 0, 0, 0,   -- XTOsiz
   0, 0, 0, 0,   -- YTOsiz
   0, 0]         -- Csiz

/-- A box header whose 4-byte length field is the reserved value 2. -/
def reservedBoxBytes : List Nat := [0, 0, 0, 2, 65, 66, 67, 68]

/-- A JP2 Signature box: length 12, type `jP\x20\x20`, magic payload. -/
def sigBoxBytes : List Nat := [0, 0, 0, 12, 106, 80, 32, 32, 13, 10, 135, 10]

/-- A File Type box: brand `jp2\x20`, minor version 0, compatibility list
`["jp2 "]`. -/
def ftypBoxBytes : List Nat :=
  [0, 0, 0, 20, 102, 116, 121, 112, 106, 112, 50, 32, 0, 0, 0, 0,
   106, 112, 50, 32]

/-- An Image Header box: 64×128, one component, 8-bit unsigned,
compression 7. -/
def ihdrBoxBytes : List Nat :=
  [0, 0, 0, 22, 105, 104, 100, 114] ++
  [0, 0, 0, 128, 0, 0, 0, 64, 0, 1, 7, 7, 0, 0]

/-- A Colour Specification box: method 1 (enumerated), sRGB (16). -/
def colrBoxBytes : List Nat :=
  [0, 0, 0, 15, 99, 111, 108, 114] ++ [1, 0, 0, 0, 0, 0, 16]

/-- A Palette box: one entry, one generated component, 8-bit unsigned. -/
def pclrBoxBytes : List Nat :=
  [0, 0, 0, 13, 112, 99, 108, 114] ++ [0, 1, 1, 7, 42]

/-- A Component Mapping box with a single direct mapping. -/
def cmapBoxBytes : List Nat :=
  [0, 0, 0, 12, 99, 109, 97, 112] ++ [0, 0, 1, 0]

/-- A Contiguous Codestream box of length 0 ("to end of file"). -/
def jp2cBoxBytes : List Nat := [0, 0, 0, 0, 106, 112, 50, 99]

/-- A JP2 file whose top level is Signature, File Type, and then a box of
the unrecognised type `ABCD`. -/
def jp2UnknownTopLevelBytes : List Nat :=
  sigBoxBytes ++ ftypBoxBytes ++ [0, 0, 0, 8, 65, 66, 67, 68]

/-- A JP2 file whose JP2 Header super-box contains `ihdr`, `colr` and a
`pclr` but no `cmap`. -/
def jp2PclrWithoutCmapBytes : List Nat :=
  sigBoxBytes ++ ftypBoxBytes ++
  [0, 0, 0, 58, 106, 112, 50, 104] ++ ihdrBoxBytes ++ colrBoxBytes ++
  pclrBoxBytes ++ jp2cBoxBytes

/-- A JP2 file whose JP2 Header super-box contains `ihdr`, `colr` and a
`cmap` but no `pclr`. -/
def jp2CmapWithoutPclrBytes : List Nat :=
  sigBoxBytes ++ ftypBoxBytes ++
  [0, 0, 0, 57, 106, 112, 50, 104] ++ ihdrBoxBytes ++ colrBoxBytes ++
  cmapBoxBytes ++ jp2cBoxBytes

/-- For a decoded JP2 file, whether the header super-box holds a Palette box
and whether it holds a Component Mapping box (`none` when the parse failed
or no header box was seen). -/
def jp2PclrCmapPresence (res : Except Jp2Err (JP2File × ByteReader)) :
    Option (Bool × Bool) :=
  match res with
  | .ok (f, _) =>
    match f.header with
    | some h => some (h.palette_box.isSome, h.component_mapping_box.isSome)
    | none => none
  | .error _ => none

/-- A minimal well-formed JPC main header: `SOC`, a valid `SIZ` with
`Csiz = 0`, a `COD`, a `QCD` (no-quantization style, `Lqcd = 4`), then
`SOT`. -/
def mainHeaderOkBytes : List Nat :=
  [255, 79] ++
  [255, 81] ++ [0, 38, 0, 0,
    0, 0, 0, 1, 0, 0, 0, 1, 0, 0, 0, 0, 0, 0, 0, 0,
    0, 0, 0, 1, 0, 0, 0, 1, 0, 0, 0, 0, 0, 0, 0, 0, 0, 0] ++
  [255, 82] ++ [0, 12, 0, 0, 0, 1, 0, 0, 0, 0, 0, 1] ++
  [255, 92] ++ [0, 4, 0, 0] ++
  [255, 144]

/-! ## Theorems -/

/-- **C1.**  The MQ-coder round-trip contract fails on the code: encoding
the nine-bit sequence `0,0,1,1,0,1,0,0,0` under a single context (both
coders freshly initialised with one context) and decoding the flushed
bytes yields `0,0,1,0,1,1,0,0,1`, which differs from the input in five
positions.  The flushed output is `0x36 0xFF 0x7F`; the decoder's `byte_in`
mishandles the byte after the `0xFF` (it adds the `0xFF` itself shifted by
9 instead of the stuffed byte, and tests the upcoming rather than the
previous byte for stuffing), so every compressed stream containing an
interior `0xFF` risks corruption. -/
theorem mq_roundtrip_fails_on_failing_input :
    mqRoundTrip 1 mqFailingOps = [0, 0, 1, 0, 1, 1, 0, 0, 1]
    ∧ mqFailingOps.map Prod.snd = [0, 0, 1, 1, 0, 1, 0, 0, 0]
    ∧ ([0, 0, 1, 0, 1, 1, 0, 0, 1] : List Nat) ≠ [0, 0, 1, 1, 0, 1, 0, 0, 0] :=
  ⟨rfl, rfl, by decide⟩

/-- **C2.**  `CodingStyleDefault::new` does not treat the Scod flags as
independent bits: for `Scod = 8` (only reserved bit 3 set) it returns the
empty set — neither `NoSOP` (bit 1 clear) nor `NoEPH` (bit 2 clear) nor any
precinct variant is reported, contradicting the claimed per-bit decoding.
Moreover for `Scod = 1` (bit 0 set, user-defined precincts) it reports
`EntropyCoderWithPrecincts`, the variant its own Table A.13 comment glosses
as "precincts with PPx = 15 and PPy = 15" (the default), i.e. the two
precinct variants are swapped relative to bit 0. -/
theorem coding_style_default_not_bitwise :
    CodingStyleDefault.new 8 = []
    ∧ CodingStyleDefault.new 1 =
        [.entropyCoderWithPrecincts, .noSOP, .noEPH] :=
  ⟨rfl, rfl⟩

/-- **C3.**  `decode_qcd` does not read `3·NL + 1` step sizes of the
associated COD/COC for the scalar-derived style, and in particular not the
single two-byte value the standard signals: it hard-codes five
decomposition levels, i.e. sixteen two-byte values.  On the conformant
five-byte scalar-derived QCD segment (one step size) it therefore runs off
the end of the segment and fails with an end-of-file error, and with 32
bytes of padding available it reads sixteen values instead of one. -/
theorem decode_qcd_scalar_derived_reads_sixteen_values :
    decode_qcd ⟨qcdScalarDerivedConformant, 0⟩ = .error .eof
    ∧ (decode_qcd ⟨qcdScalarDerivedPadded, 0⟩).toOption.map
        (fun p => p.1.values.length) = some 16 :=
  ⟨rfl, rfl⟩

/-- **C4.**  `decode_siz` accepts a SIZ segment that violates the invariant
`XTsiz + XTOsiz > XOsiz`: on `sizViolatingBytes` (where
`XTsiz + XTOsiz = 1 = XOsiz`) it returns a segment rather than the
`TileSizeOverflow` error the claim requires, because the source tests
`XTsiz + XTOsiz < XOsiz` instead of `≤`. -/
theorem decode_siz_accepts_boundary_tile_size :
    (decode_siz ⟨sizViolatingBytes, 0⟩).toOption.map
      (fun p => (p.1.referenceTileWidth + p.1.tileHorizontalOffset,
                 p.1.imageHorizontalOffset)) = some (1, 1) := rfl

/-- **C5.**  For a box length field in the reserved range `2 ≤ L ≤ 7`,
`decode_box_header` does not return the `BoxMalformed` error value — it
panics (`panic!("unsupported reserved box length …")`), shown here at
`L = 2`.  The other two parts of the claim do hold: at `L = 1` the payload
length is `XL − 16` with header size 16 (here `XL = 100` gives 84), and at
`L ≥ 8` the payload length is `L − 8` with header size 8 (here `L = 20`
gives 12). -/
theorem decode_box_header_reserved_length_panics :
    decode_box_header ⟨reservedBoxBytes, 0⟩ = .error .panicked
    ∧ (decode_box_header
        ⟨[0, 0, 0, 1, 65, 66, 67, 68, 0, 0, 0, 0, 0, 0, 0, 100], 0⟩).toOption.map
        (fun p => (p.1.box_length, p.1.header_length)) = some (84, 16)
    ∧ (decode_box_header ⟨[0, 0, 0, 20, 65, 66, 67, 68], 0⟩).toOption.map
        (fun p => (p.1.box_length, p.1.header_length)) = some (12, 8) :=
  ⟨rfl, rfl, rfl⟩

/-- **C6.**  `decode_jp2` does not warn-and-truncate on an unrecognised
top-level box type: after a valid Signature box and File Type box, a box of
type `ABCD` drives the top-level dispatch into its
`panic!("Unexpected box type …")` arm instead of returning the tree built
so far. -/
theorem decode_jp2_unknown_top_level_panics :
    decode_jp2 50 ⟨jp2UnknownTopLevelBytes, 0⟩ = .error .panicked := rfl

/-- **C7 counterexample.**  The claim "an input whose header has one of the
two without the other is rejected" is false: `decode_jp2` accepts a JP2
file whose header super-box contains a Palette box but no Component Mapping
box, returning a tree whose header has `pclr` present and `cmap` absent. -/
theorem decode_jp2_accepts_pclr_without_cmap :
    jp2PclrCmapPresence (decode_jp2 50 ⟨jp2PclrWithoutCmapBytes, 0⟩) =
      some (true, false) := rfl

/-- **C7 (amended).**  `decode_jp2` enforces no pairing between the Palette
and Component Mapping boxes: a JP2 header with a `pclr` alone parses
successfully (palette present, mapping absent), and so does one with a
`cmap` alone (palette absent, mapping present). -/
theorem decode_jp2_cmap_pclr_unenforced :
    jp2PclrCmapPresence (decode_jp2 50 ⟨jp2PclrWithoutCmapBytes, 0⟩) =
      some (true, false)
    ∧ jp2PclrCmapPresence (decode_jp2 50 ⟨jp2CmapWithoutPclrBytes, 0⟩) =
      some (false, true) :=
  ⟨rfl, rfl⟩

/-- **C10.**  `TagTreeDecoder::push_bit` interface: for every decoder
state, `push_bit(0)` increments `cur_value` (a `u8`, so modulo 256) and
returns `None`; an argument other than 0 or 1 fails the
`assert_eq!(1, b)` assertion; and under the precondition `b ∈ {0, 1}` that
assertion never fires. -/
theorem push_bit_spec (t : TagTreeDecoder) (b : Nat) :
    TagTreeDecoder.pushBit t 0 =
      .ok none { t with cur_value := (t.cur_value + 1) % 256 }
    ∧ (b ≠ 0 → b ≠ 1 → TagTreeDecoder.pushBit t b = .assertFail)
    ∧ (b = 0 ∨ b = 1 → TagTreeDecoder.pushBit t b ≠ .assertFail) := by
  refine ⟨rfl, ?_, ?_⟩
  · intro h0 h1
    simp [TagTreeDecoder.pushBit, h0, h1]
  · rintro (rfl | rfl)
    · intro hcontra
      simp [TagTreeDecoder.pushBit] at hcontra
    · intro hcontra
      simp only [TagTreeDecoder.pushBit] at hcontra
      norm_num at hcontra
      rcases hg : t.levels[t.cur_depth]? with _ | ⟨w, lvl⟩ <;>
        rw [hg] at hcontra <;> dsimp only at hcontra
      · exact absurd hcontra (by simp)
      · split at hcontra
        · exact absurd hcontra (by simp)
        · split at hcontra
          · exact absurd hcontra (by simp)
          · rcases hb : TagTreeDecoder.backtrackLoop
                (t.levels.set t.cur_depth (w, lvl ++ [t.cur_value]))
                t.cur_depth with _ | ⟨v, depth⟩ <;>
              rw [hb] at hcontra <;> simp at hcontra

/-- `push_bit_spec` instantiated at the fresh 2×2 decoder: pushing 0
increments the counter, pushing 2 fails the assertion, pushing 1 does
not. -/
theorem push_bit_spec_witness :
    TagTreeDecoder.pushBit (TagTreeDecoder.new 2 2) 0 =
      .ok none { TagTreeDecoder.new 2 2 with cur_value := 1 }
    ∧ TagTreeDecoder.pushBit (TagTreeDecoder.new 2 2) 2 = .assertFail
    ∧ TagTreeDecoder.pushBit (TagTreeDecoder.new 2 2) 1 ≠ .assertFail := by
  refine ⟨?_, ?_, ?_⟩
  · exact (push_bit_spec (TagTreeDecoder.new 2 2) 0).1
  · exact (push_bit_spec (TagTreeDecoder.new 2 2) 2).2.1
      (by decide) (by decide)
  · exact (push_bit_spec (TagTreeDecoder.new 2 2) 1).2.2 (Or.inr rfl)

/-! Supporting lemmas for the MQ context-state invariant (claim C9). -/

theorem qe_entry_bounds (i : Nat) :
    (QE_TABLE.getD i default).nmps ≤ 46 ∧ (QE_TABLE.getD i default).nlps ≤ 46 := by
  by_cases h : i < 47
  · have hall : ∀ j, j < 47 →
        (QE_TABLE.getD j default).nmps ≤ 46
        ∧ (QE_TABLE.getD j default).nlps ≤ 46 := by decide
    exact hall i h
  · have hlen : QE_TABLE.length ≤ i := by
      have h47 : QE_TABLE.length = 47 := by decide
      omega
    rw [List.getD_eq_getElem?_getD, List.getElem?_eq_none hlen]
    exact ⟨by decide, by decide⟩

theorem ctxOk_default : ctxOk default := ⟨by decide, by decide⟩

theorem ctxOk_getD {l : List ContextState} (h : ∀ s ∈ l, ctxOk s) (i : Nat) :
    ctxOk (l.getD i default) := by
  rcases he : l[i]? with _ | s
  · rw [List.getD_eq_getElem?_getD, he]
    exact ctxOk_default
  · rw [List.getD_eq_getElem?_getD, he]
    exact h s (List.getElem?_mem he)

theorem ctxOk_set {l : List ContextState} {b : ContextState}
    (h : ∀ s ∈ l, ctxOk s) (hb : ctxOk b) (i : Nat) :
    ∀ s ∈ l.set i b, ctxOk s := fun s hs =>
  (List.mem_or_eq_of_mem_set hs).elim (h s) (fun he => he ▸ hb)

theorem ctxOk_set_nmps {l : List ContextState} (h : ∀ s ∈ l, ctxOk s)
    (cx i : Nat) :
    ∀ s ∈ l.set cx
      { l.getD cx default with index := (QE_TABLE.getD i default).nmps },
      ctxOk s := by
  refine ctxOk_set h ?_ cx
  exact ⟨(qe_entry_bounds i).1, (ctxOk_getD h cx).2⟩

theorem ctxOk_set_nlps {l : List ContextState} (h : ∀ s ∈ l, ctxOk s)
    (cx i : Nat) :
    ∀ s ∈ l.set cx
      { l.getD cx default with index := (QE_TABLE.getD i default).nlps },
      ctxOk s := by
  refine ctxOk_set h ?_ cx
  exact ⟨(qe_entry_bounds i).2, (ctxOk_getD h cx).2⟩

theorem ctxOk_set_flip {l : List ContextState} (h : ∀ s ∈ l, ctxOk s)
    (cx : Nat) :
    ∀ s ∈ l.set cx
      { l.getD cx default with mps := 1 - (l.getD cx default).mps },
      ctxOk s := by
  refine ctxOk_set h ?_ cx
  exact ⟨(ctxOk_getD h cx).1, Nat.sub_le 1 _⟩

theorem byteOut_contexts (e : MqEncoder) :
    (MqEncoder.byteOut e).contexts = e.contexts := by
  unfold MqEncoder.byteOut MqEncoder.byteOutEmit
  dsimp only
  repeat' split
  all_goals rfl

theorem renormE_contexts (fuel : Nat) (e : MqEncoder) :
    (MqEncoder.renormE fuel e).contexts = e.contexts := by
  induction fuel generalizing e with
  | zero => rfl
  | succ n ih =>
    unfold MqEncoder.renormE
    dsimp only
    split
    · split
      · rw [byteOut_contexts]
      · rw [ih, byteOut_contexts]
    · split
      · rfl
      · rw [ih]

theorem code_mps_ctxOk (e : MqEncoder) (cx : Nat)
    (h : ∀ s ∈ e.contexts, ctxOk s) :
    ∀ s ∈ (MqEncoder.code_mps e cx).contexts, ctxOk s := by
  unfold MqEncoder.code_mps
  dsimp only
  split
  · rw [renormE_contexts]
    split <;> exact ctxOk_set_nmps h cx _
  · exact h

theorem code_lps_ctxOk (e : MqEncoder) (cx : Nat)
    (h : ∀ s ∈ e.contexts, ctxOk s) :
    ∀ s ∈ (MqEncoder.code_lps e cx).contexts, ctxOk s := by
  unfold MqEncoder.code_lps
  dsimp only
  rw [renormE_contexts]
  split
  · split <;> exact ctxOk_set_nlps (ctxOk_set_flip h cx) cx _
  · split <;> exact ctxOk_set_nlps h cx _

theorem encode_ctxOk (e : MqEncoder) (cx d : Nat)
    (h : ∀ s ∈ e.contexts, ctxOk s) :
    ∀ s ∈ (MqEncoder.encode e cx d).contexts, ctxOk s := by
  unfold MqEncoder.encode MqEncoder.code0 MqEncoder.code1
  split
  · split
    · exact code_mps_ctxOk e cx h
    · exact code_lps_ctxOk e cx h
  · split
    · exact code_mps_ctxOk e cx h
    · exact code_lps_ctxOk e cx h

theorem mqEncodeSeq_ctxOk (ops : List (Nat × Nat)) (e : MqEncoder)
    (h : ∀ s ∈ e.contexts, ctxOk s) :
    ∀ s ∈ (mqEncodeSeq ops e).contexts, ctxOk s := by
  induction ops generalizing e with
  | nil => exact h
  | cons p rest ih =>
    simp only [mqEncodeSeq, List.foldl_cons] at *
    exact ih _ (encode_ctxOk e p.1 p.2 h)

theorem mqEncoder_init_contexts (e : MqEncoder) :
    (MqEncoder.init e).contexts = e.contexts := by
  unfold MqEncoder.init
  dsimp only
  split <;> rfl

theorem byteIn_contexts (d : MqDecoder) :
    (MqDecoder.byteIn d).contexts = d.contexts := by
  unfold MqDecoder.byteIn
  dsimp only
  repeat' split
  all_goals rfl

theorem renormD_contexts (fuel : Nat) (d : MqDecoder) :
    (MqDecoder.renormD fuel d).contexts = d.contexts := by
  induction fuel generalizing d with
  | zero => rfl
  | succ n ih =>
    unfold MqDecoder.renormD
    dsimp only
    split
    · split
      · rw [byteIn_contexts]
      · rw [ih, byteIn_contexts]
    · split
      · rfl
      · rw [ih]

theorem mps_exchange_ctxOk (d : MqDecoder) (cx : Nat)
    (h : ∀ s ∈ d.contexts, ctxOk s) :
    ∀ s ∈ (MqDecoder.mps_exchange d cx).2.contexts, ctxOk s := by
  unfold MqDecoder.mps_exchange
  dsimp only
  split
  · split
    · exact ctxOk_set_nlps (ctxOk_set_flip h cx) cx _
    · exact ctxOk_set_nlps h cx _
  · exact ctxOk_set_nmps h cx _

theorem lps_exchange_ctxOk (d : MqDecoder) (cx : Nat)
    (h : ∀ s ∈ d.contexts, ctxOk s) :
    ∀ s ∈ (MqDecoder.lps_exchange d cx).2.contexts, ctxOk s := by
  unfold MqDecoder.lps_exchange
  dsimp only
  split
  · exact ctxOk_set_nmps h cx _
  · split
    · exact ctxOk_set_nlps (ctxOk_set_flip h cx) cx _
    · exact ctxOk_set_nlps h cx _

theorem decode_ctxOk (d : MqDecoder) (cx : Nat)
    (h : ∀ s ∈ d.contexts, ctxOk s) :
    ∀ s ∈ (MqDecoder.decode d cx).2.contexts, ctxOk s := by
  unfold MqDecoder.decode
  dsimp only
  split
  · rcases hex : MqDecoder.lps_exchange
        { d with a := d.a - (QE_TABLE.getD (d.contexts.getD cx default).index default).qe }
        cx with ⟨out, d3⟩
    dsimp only
    rw [renormD_contexts]
    have := lps_exchange_ctxOk
      { d with a := d.a - (QE_TABLE.getD (d.contexts.getD cx default).index default).qe }
      cx h
    rw [hex] at this
    exact this
  · split
    · rcases hex : MqDecoder.mps_exchange
          { d with
            a := d.a - (QE_TABLE.getD (d.contexts.getD cx default).index default).qe,
            c := d.c - ((QE_TABLE.getD (d.contexts.getD cx default).index default).qe <<< 16) }
          cx with ⟨out, d3⟩
      dsimp only
      rw [renormD_contexts]
      have := mps_exchange_ctxOk
        { d with
          a := d.a - (QE_TABLE.getD (d.contexts.getD cx default).index default).qe,
          c := d.c - ((QE_TABLE.getD (d.contexts.getD cx default).index default).qe <<< 16) }
        cx h
      rw [hex] at this
      exact this
    · exact h

theorem mqDecodeSeq_ctxOk (plan : List Nat) (d : MqDecoder)
    (h : ∀ s ∈ d.contexts, ctxOk s) :
    ∀ s ∈ (mqDecodeSeq plan d).2.contexts, ctxOk s := by
  induction plan generalizing d with
  | nil => exact h
  | cons cx rest ih =>
    unfold mqDecodeSeq
    rcases hd : MqDecoder.decode d cx with ⟨bit, d2⟩
    dsimp only
    have h2 := decode_ctxOk d cx h
    rw [hd] at h2
    rcases hrest : mqDecodeSeq rest d2 with ⟨bits, d3⟩
    dsimp only
    have h3 := ih d2 h2
    rw [hrest] at h3
    exact h3

theorem mqDecoder_init_contexts (d : MqDecoder) (data : List Nat) :
    (MqDecoder.init d data).contexts = d.contexts := by
  unfold MqDecoder.init
  dsimp only
  split <;> rw [byteIn_contexts]

/-- **C9.**  MQ context-state invariant: every row of the 47-row `QE_TABLE`
has its NMPS and NLPS successors at most 46, and consequently, starting
from freshly constructed and initialised coders, any sequence of encode
operations and any sequence of decode operations (context arguments below
the constructed context count) leaves every context state with a table
index in `0..=46` and an MPS bit in `{0, 1}` — so every `QE_TABLE` lookup
the coders perform is in bounds. -/
theorem mq_context_state_invariant (n : Nat) (ops : List (Nat × Nat))
    (plan data : List Nat)
    (hops : ∀ p ∈ ops, p.1 < n) (hplan : ∀ cx ∈ plan, cx < n) :
    (∀ q ∈ QE_TABLE, q.nmps ≤ 46 ∧ q.nlps ≤ 46)
    ∧ (∀ s ∈ (mqEncodeSeq ops (MqEncoder.new n).init).contexts, ctxOk s)
    ∧ (∀ s ∈ (mqDecodeSeq plan ((MqDecoder.new n).init data)).2.contexts,
        ctxOk s) := by
  refine ⟨by decide, ?_, ?_⟩
  · apply mqEncodeSeq_ctxOk
    rw [mqEncoder_init_contexts]
    intro s hs
    rw [List.eq_of_mem_replicate hs]
    exact ctxOk_default
  · apply mqDecodeSeq_ctxOk
    rw [mqDecoder_init_contexts]
    intro s hs
    rw [List.eq_of_mem_replicate hs]
    exact ctxOk_default

/-- `mq_context_state_invariant` instantiated with two contexts, the
encode plan `(0,1), (1,0)`, the decode plan `0, 1` and the one-byte input
`0x12`. -/
theorem mq_context_state_invariant_witness :
    (∀ p ∈ [((0 : Nat), (1 : Nat)), (1, 0)], p.1 < 2)
    ∧ (∀ cx ∈ [(0 : Nat), 1], cx < 2)
    ∧ (∀ s ∈ (mqEncodeSeq [(0, 1), (1, 0)] (MqEncoder.new 2).init).contexts,
        ctxOk s)
    ∧ (∀ s ∈ (mqDecodeSeq [0, 1] ((MqDecoder.new 2).init [18])).2.contexts,
        ctxOk s) := by
  have h := mq_context_state_invariant 2 [(0, 1), (1, 0)] [0, 1] [18]
    (by decide) (by decide)
  exact ⟨by decide, by decide, h.2.1, h.2.2⟩

/-! Supporting lemmas for the main-header invariants (claim C8). -/

theorem bind_ok {α β : Type} {x : Except JpcErr α} {f : α → Except JpcErr β}
    {b : β} (h : (x >>= f) = .ok b) : ∃ a, x = .ok a ∧ f a = .ok b := by
  cases x with
  | error e => exact absurd h (by simp [Bind.bind, Except.bind])
  | ok a => exact ⟨a, rfl, by simpa [Bind.bind, Except.bind] using h⟩

theorem readJ_ok {r : ByteReader} {n : Nat} {bs : List Nat} {r2 : ByteReader}
    (h : r.readJ n = .ok (bs, r2)) :
    bs = (r.data.drop r.pos).take n ∧ r2 = { r with pos := r.pos + n } := by
  unfold ByteReader.readJ ByteReader.readExact at h
  by_cases hc : r.pos + n ≤ r.data.length
  · rw [if_pos hc] at h
    injection h with hp
    injection hp with h1 h2
    exact ⟨h1.symm, h2.symm⟩
  · rw [if_neg hc] at h
    exact Except.noConfusion h

theorem main_header_step_siz {marker : List Nat} {nc : Nat} {h0 h1 : Header}
    {r r2 : ByteReader} (h : main_header_step marker nc h0 r = .ok (h1, r2)) :
    h1.image_and_tile_size_marker_segment
      = h0.image_and_tile_size_marker_segment := by
  unfold main_header_step at h
  by_cases c1 : (marker == [255, 83]) = true
  · rw [if_pos c1] at h
    obtain ⟨⟨seg, r3⟩, -, hk⟩ := bind_ok h
    simp only [pure, Except.pure, Except.ok.injEq, Prod.mk.injEq] at hk
    obtain ⟨hh, -⟩ := hk
    rw [← hh]
  · rw [if_neg c1] at h
    by_cases c2 : (marker == [255, 92]) = true
    · rw [if_pos c2] at h
      obtain ⟨⟨seg, r3⟩, -, hk⟩ := bind_ok h
      simp only [pure, Except.pure, Except.ok.injEq, Prod.mk.injEq] at hk
      obtain ⟨hh, -⟩ := hk
      rw [← hh]
    · rw [if_neg c2] at h
      by_cases c3 : (marker == [255, 82]) = true
      · rw [if_pos c3] at h
        obtain ⟨⟨seg, r3⟩, -, hk⟩ := bind_ok h
        simp only [pure, Except.pure, Except.ok.injEq, Prod.mk.injEq] at hk
        obtain ⟨hh, -⟩ := hk
        rw [← hh]
      · rw [if_neg c3] at h
        by_cases c4 : (marker == [255, 93]) = true
        · rw [if_pos c4] at h
          obtain ⟨⟨seg, r3⟩, -, hk⟩ := bind_ok h
          simp only [pure, Except.pure, Except.ok.injEq, Prod.mk.injEq] at hk
          obtain ⟨hh, -⟩ := hk
          rw [← hh]
        · rw [if_neg c4] at h
          by_cases c5 : (marker == [255, 94]) = true
          · rw [if_pos c5] at h
            obtain ⟨⟨seg, r3⟩, -, hk⟩ := bind_ok h
            simp only [pure, Except.pure, Except.ok.injEq, Prod.mk.injEq] at hk
            obtain ⟨hh, -⟩ := hk
            rw [← hh]
          · rw [if_neg c5] at h
            by_cases c6 : (marker == [255, 95]) = true
            · rw [if_pos c6] at h
              obtain ⟨⟨seg, r3⟩, -, hk⟩ := bind_ok h
              simp only [pure, Except.pure, Except.ok.injEq, Prod.mk.injEq] at hk
              obtain ⟨hh, -⟩ := hk
              rw [← hh]
            · rw [if_neg c6] at h
              by_cases c7 : (marker == [255, 96]) = true
              · rw [if_pos c7] at h
                obtain ⟨⟨seg, r3⟩, -, hk⟩ := bind_ok h
                simp only [pure, Except.pure, Except.ok.injEq, Prod.mk.injEq] at hk
                obtain ⟨hh, -⟩ := hk
                rw [← hh]
              · rw [if_neg c7] at h
                by_cases c8 : (marker == [255, 85]) = true
                · rw [if_pos c8] at h
                  obtain ⟨⟨seg, r3⟩, -, hk⟩ := bind_ok h
                  simp only [pure, Except.pure, Except.ok.injEq, Prod.mk.injEq] at hk
                  obtain ⟨hh, -⟩ := hk
                  rw [← hh]
                · rw [if_neg c8] at h
                  by_cases c9 : (marker == [255, 87]) = true
                  · rw [if_pos c9] at h
                    obtain ⟨⟨seg, r3⟩, -, hk⟩ := bind_ok h
                    simp only [pure, Except.pure, Except.ok.injEq, Prod.mk.injEq] at hk
                    obtain ⟨hh, -⟩ := hk
                    rw [← hh]
                  · rw [if_neg c9] at h
                    by_cases c10 : (marker == [255, 99]) = true
                    · rw [if_pos c10] at h
                      obtain ⟨⟨seg, r3⟩, -, hk⟩ := bind_ok h
                      simp only [pure, Except.pure, Except.ok.injEq, Prod.mk.injEq] at hk
                      obtain ⟨hh, -⟩ := hk
                      rw [← hh]
                    · rw [if_neg c10] at h
                      by_cases c11 : (marker == [255, 100]) = true
                      · rw [if_pos c11] at h
                        obtain ⟨⟨seg, r3⟩, -, hk⟩ := bind_ok h
                        simp only [pure, Except.pure, Except.ok.injEq, Prod.mk.injEq] at hk
                        obtain ⟨hh, -⟩ := hk
                        rw [← hh]
                      · rw [if_neg c11] at h
                        exact Except.noConfusion h

theorem main_header_loop_siz (fuel : Nat) :
    ∀ {nc : Nat} {h0 h1 : Header} {r r2 : ByteReader},
    main_header_loop nc fuel h0 r = .ok (h1, r2) →
    h1.image_and_tile_size_marker_segment
      = h0.image_and_tile_size_marker_segment := by
  induction fuel with
  | zero =>
    intro nc h0 h1 r r2 h
    exact Except.noConfusion h
  | succ n ih =>
    intro nc h0 h1 r r2 h
    unfold main_header_loop at h
    obtain ⟨⟨marker, r3⟩, -, hk⟩ := bind_ok h
    dsimp only at hk
    split at hk
    · injection hk with hp
      injection hp with hh hr4
      rw [← hh]
    · obtain ⟨⟨h2, r4⟩, hstep, hk2⟩ := bind_ok hk
      exact (ih hk2).trans (main_header_step_siz hstep)

/-- **C8.**  Every successfully decoded main header satisfies the claimed
invariants: the input begins with the `SOC` marker followed by the `SIZ`
marker, the returned header holds a COD and a QCD segment, and the numbers
of COC, RGN and QCC segments are each at most Csiz (the component count of
the header's own SIZ segment); inputs violating any of these make
`decode_main_header` fail. -/
theorem decode_main_header_invariants (fuel : Nat) (r r2 : ByteReader)
    (hdr : Header) (h : decode_main_header fuel r = .ok (hdr, r2)) :
    (r.data.drop r.pos).take 4 = [255, 79, 255, 81]
    ∧ hdr.coding_style_marker_segment.isSome = true
    ∧ hdr.quantization_default_marker_segment.isSome = true
    ∧ hdr.coding_style_component_segment.length
        ≤ hdr.image_and_tile_size_marker_segment.noComponents
    ∧ hdr.regions.length ≤ hdr.image_and_tile_size_marker_segment.noComponents
    ∧ hdr.quantization_component_segments.length
        ≤ hdr.image_and_tile_size_marker_segment.noComponents := by
  unfold decode_main_header at h
  obtain ⟨⟨m1, r3⟩, hr1, h⟩ := bind_ok h
  dsimp only at h
  by_cases hm1 : (m1 != [255, 79]) = true
  · rw [if_pos hm1] at h
    exact Except.noConfusion h
  · rw [if_neg hm1] at h
    obtain ⟨⟨m2, r4⟩, hr2, h⟩ := bind_ok h
    dsimp only at h
    by_cases hm2 : (m2 != [255, 81]) = true
    · rw [if_pos hm2] at h
      exact Except.noConfusion h
    · rw [if_neg hm2] at h
      obtain ⟨⟨siz, r5⟩, hsiz, h⟩ := bind_ok h
      dsimp only at h
      obtain ⟨⟨hd2, r6⟩, hloop, h⟩ := bind_ok h
      dsimp only at h
      by_cases hqcd : hd2.quantization_default_marker_segment.isNone = true
      · rw [if_pos hqcd] at h
        exact Except.noConfusion h
      · rw [if_neg hqcd] at h
        by_cases hcod : hd2.coding_style_marker_segment.isNone = true
        · rw [if_pos hcod] at h
          exact Except.noConfusion h
        · rw [if_neg hcod] at h
          by_cases hcoc :
              hd2.coding_style_component_segment.length > siz.noComponents
          · rw [if_pos hcoc] at h
            exact Except.noConfusion h
          · rw [if_neg hcoc] at h
            by_cases hrgn : hd2.regions.length > siz.noComponents
            · rw [if_pos hrgn] at h
              exact Except.noConfusion h
            · rw [if_neg hrgn] at h
              by_cases hqcc :
                  hd2.quantization_component_segments.length > siz.noComponents
              · rw [if_pos hqcc] at h
                exact Except.noConfusion h
              · rw [if_neg hqcc] at h
                simp only [pure, Except.pure, Except.ok.injEq,
                  Prod.mk.injEq] at h
                obtain ⟨hh, -⟩ := h
                subst hh
                have hm1p : m1 = [255, 79] := by simpa using hm1
                have hm2p : m2 = [255, 81] := by simpa using hm2
                obtain ⟨hbs1, hrr1⟩ := readJ_ok hr1
                obtain ⟨hbs2, hrr2⟩ := readJ_ok hr2
                have hsizpres :
                    hd2.image_and_tile_size_marker_segment = siz :=
                  main_header_loop_siz fuel hloop
                refine ⟨?_, ?_, ?_, ?_, ?_, ?_⟩
                · have htake :
                      (r.data.drop r.pos).take 4
                        = (r.data.drop r.pos).take 2
                          ++ ((r.data.drop r.pos).drop 2).take 2 :=
                    List.take_add _ 2 2
                  have hdd :
                      (r.data.drop r.pos).drop 2 = r3.data.drop r3.pos := by
                    rw [hrr1]
                    dsimp only
                    rw [List.drop_drop, Nat.add_comm]
                  rw [htake, ← hbs1, hm1p, hdd, ← hbs2, hm2p]
                  rfl
                · exact Option.isSome_iff_ne_none.mpr (by simpa using hcod)
                · exact Option.isSome_iff_ne_none.mpr (by simpa using hqcd)
                · rw [hsizpres]
                  exact Nat.le_of_not_lt hcoc
                · rw [hsizpres]
                  exact Nat.le_of_not_lt hrgn
                · rw [hsizpres]
                  exact Nat.le_of_not_lt hqcc

/-- `decode_main_header_invariants` instantiated at a concrete minimal main
header (`SOC`, valid `SIZ`, `COD`, `QCD`, then `SOT`), which the decoder
accepts. -/
theorem decode_main_header_invariants_witness :
    (decode_main_header 10 ⟨mainHeaderOkBytes, 0⟩).toOption.isSome = true
    ∧ List.take 4 (List.drop 0 mainHeaderOkBytes) = [255, 79, 255, 81] := by
  refine ⟨by rfl, ?_⟩
  cases hp : decode_main_header 10 ⟨mainHeaderOkBytes, 0⟩ with
  | error e =>
    have hok :
        (decode_main_header 10 ⟨mainHeaderOkBytes, 0⟩).toOption.isSome
          = true := by rfl
    rw [hp] at hok
    exact Bool.noConfusion hok
  | ok p =>
    have hinv := decode_main_header_invariants 10 ⟨mainHeaderOkBytes, 0⟩
      p.2 p.1 (by rw [hp])
    exact hinv.1

end Jpeg2000
